import Mathlib

/-!
# Verification of the talent-catalog command-matching and execution plugins

This file gives a shallow embedding, in Lean 4, of the talent plugins of the
talent-catalog repository (`src/marketplace/talents/*.py`) and proves or
refutes the frozen claims about them.

Modelling conventions:
* Python strings are modelled as `List Char` (`Str`).  `str.lower` is
  `Char.toLower` character-wise; the two agree on ASCII, and every keyword,
  exclusion term and command phrase in the source is ASCII.
* Python `pat in s` (substring test) is `containsSub pat s`.
* `ExecutionResult` dictionaries are the structure `ExecResult`; the
  `actions_taken` entries are `ActionRec` records.
* Timestamps (`datetime.now().timestamp()`, ISO `created` strings) are
  modelled by an integer clock passed explicitly; ISO-8601 strings of a
  monotone clock compare lexicographically exactly as the integers do.
* Calls into external libraries (yfinance, pyperclip, the currency API) are
  modelled by explicit oracle records quantified over in the theorems.
* Numeric values flowing through the unit converter and the stock talent are
  modelled as exact rationals; the Python source computes with binary
  doubles, whose rounding error is far below the displayed precision for
  every value appearing in the claims.
-/

/-! ## Strings -/

/-- Python strings as lists of characters. -/
abbrev Str := List Char

/-- Coerce a Lean string literal to the `Str` model. -/
def strL (s : String) : Str := s.toList

/-- `str.lower()` (ASCII; all constants in the source are ASCII). -/
def lowerStr (s : Str) : Str := s.map Char.toLower

/-- `s.startswith(pat)` on the model. -/
def isPrefixL : Str → Str → Bool
  | [], _ => true
  | _ :: _, [] => false
  | a :: as, b :: bs => a == b && isPrefixL as bs

/-- Python substring containment `pat in s`. -/
def containsSub (pat : Str) : Str → Bool
  | [] => isPrefixL pat []
  | c :: t => isPrefixL pat (c :: t) || containsSub pat t

/-- `any(p in s for p in pats)` — the pervasive phrase test. -/
def matchAny (pats : List Str) (s : Str) : Bool :=
  pats.any fun p => containsSub p s

/-! ## ExecutionResult -/

/-- One record of the `actions_taken` list, e.g. `{"action": "todo_add", "text": t}`. -/
structure ActionRec where
  action : Str
  text : Option Str
deriving DecidableEq, Repr

/-- The uniform result dictionary every talent returns. -/
structure ExecResult where
  success : Bool
  response : Str
  actions_taken : List ActionRec
  spoken : Bool
deriving DecidableEq, Repr

/-- The `_fail` helper shared verbatim by every talent:
`{"success": False, "response": msg, "actions_taken": [], "spoken": False}`. -/
def resFail (msg : Str) : ExecResult :=
  { success := false, response := msg, actions_taken := [], spoken := false }

/-- The `_ok` helper: success with a single `{"action": act}` record. -/
def resOk (act : Str) (msg : Str) : ExecResult :=
  { success := true, response := msg, actions_taken := [{ action := act, text := none }],
    spoken := false }

/-- Success results of the todo talent that carry a `"text"` entry in the action. -/
def resOkText (act : Str) (msg : Str) (text : Str) : ExecResult :=
  { success := true, response := msg, actions_taken := [{ action := act, text := some text }],
    spoken := false }

/-- The contract of claim C3: a failed result carries no actions. -/
def ResultContract (r : ExecResult) : Prop :=
  r.success = false → r.actions_taken = []

/-! ## can_handle (claims C1, C2)

Every talent's `can_handle` lower-cases the command, vetoes it if any
exclusion term is a substring, and otherwise accepts iff some keyword is a
substring.  The stock talent alone appends a third branch matching bare
uppercase ticker symbols. -/

/-- The shared `can_handle` body. -/
def baseCanHandle (exclusions keywords : List Str) (command : Str) : Bool :=
  let cmd := lowerStr command
  if matchAny exclusions cmd then false
  else matchAny keywords cmd

/-- `TodoTalent.keywords`. -/
def todoKeywords : List Str :=
  [strL "todo", strL "task", strL "add task", strL "to-do", strL "to do list",
   strL "check off", strL "complete task", strL "remove task", strL "show tasks",
   strL "my tasks", strL "my list", strL "todo list"]

/-- `TodoTalent._EXCLUSIONS`. -/
def todoExclusions : List Str :=
  [strL "remind", strL "timer", strL "alarm", strL "email", strL "send", strL "note",
   strL "weather", strL "forecast", strL "hue", strL "light", strL "search"]

/-- `StockTalent.keywords`. -/
def stockKeywords : List Str :=
  [strL "stock", strL "stock price", strL "ticker", strL "shares", strL "market",
   strL "nasdaq", strL "nyse", strL "s&p", strL "dow jones"]

/-- `StockTalent._EXCLUSIONS`. -/
def stockExclusions : List Str :=
  [strL "remind", strL "timer", strL "email", strL "note", strL "weather", strL "hue",
   strL "light", strL "search", strL "news", strL "todo", strL "task", strL "pomodoro",
   strL "docker", strL "github", strL "regex", strL "json", strL "snippet",
   strL "crypto", strL "bitcoin", strL "ethereum"]

/-- `ClipboardHistoryTalent.keywords`. -/
def clipboardKeywords : List Str :=
  [strL "clipboard", strL "clipboard history", strL "paste history", strL "copy history",
   strL "last copied", strL "previous copy", strL "clear clipboard",
   strL "search clipboard", strL "show clipboard"]

/-- `ClipboardHistoryTalent._EXCLUSIONS`. -/
def clipboardExclusions : List Str :=
  [strL "remind", strL "timer", strL "email", strL "note", strL "weather", strL "hue",
   strL "light", strL "search", strL "news", strL "todo", strL "task", strL "pomodoro",
   strL "organize", strL "file"]

/-- `PomodoroTalent.keywords`. -/
def pomodoroKeywords : List Str :=
  [strL "pomodoro", strL "focus", strL "focus session", strL "focus timer",
   strL "work timer", strL "take a break", strL "start timer"]

/-- `PomodoroTalent._EXCLUSIONS`. -/
def pomodoroExclusions : List Str :=
  [strL "remind", strL "alarm", strL "email", strL "note", strL "weather", strL "hue",
   strL "light", strL "search", strL "todo", strL "task"]

/-- `UnitConverterTalent.keywords`. -/
def ucKeywords : List Str :=
  [strL "convert", strL "conversion", strL "how many", strL "how much is",
   strL "celsius", strL "fahrenheit", strL "miles", strL "kilometers",
   strL "pounds", strL "kilograms", strL "liters", strL "gallons",
   strL "inches", strL "centimeters", strL "feet", strL "meters",
   strL "exchange rate", strL "currency"]

/-- `UnitConverterTalent._EXCLUSIONS`. -/
def ucExclusions : List Str :=
  [strL "remind", strL "timer", strL "email", strL "note", strL "weather", strL "hue",
   strL "light", strL "search", strL "news", strL "todo", strL "task", strL "pomodoro",
   strL "docker", strL "github", strL "regex", strL "json", strL "snippet",
   strL "stock", strL "crypto", strL "bitcoin"]

/-- `CodeSnippetTalent.keywords`. -/
def snippetKeywords : List Str :=
  [strL "snippet", strL "code snippet", strL "save snippet", strL "save code",
   strL "find snippet", strL "search snippet", strL "list snippet",
   strL "show snippet", strL "delete snippet", strL "paste snippet",
   strL "my snippets"]

/-- `CodeSnippetTalent._EXCLUSIONS`. -/
def snippetExclusions : List Str :=
  [strL "remind", strL "timer", strL "email", strL "note", strL "weather", strL "hue",
   strL "light", strL "search", strL "news", strL "todo", strL "task", strL "pomodoro",
   strL "docker", strL "github", strL "regex", strL "json"]

/-- `CryptoTalent.keywords`. -/
def cryptoKeywords : List Str :=
  [strL "crypto", strL "cryptocurrency", strL "bitcoin", strL "btc", strL "ethereum",
   strL "eth", strL "coin price", strL "token price", strL "dogecoin", strL "solana"]

/-- `CryptoTalent._EXCLUSIONS`. -/
def cryptoExclusions : List Str :=
  [strL "remind", strL "timer", strL "email", strL "note", strL "weather", strL "hue",
   strL "light", strL "search", strL "news", strL "todo", strL "task", strL "pomodoro",
   strL "docker", strL "github", strL "regex", strL "json", strL "snippet",
   strL "stock", strL "ticker", strL "shares", strL "nasdaq"]

/-- `DockerTalent.keywords`. -/
def dockerKeywords : List Str :=
  [strL "docker", strL "container", strL "containers", strL "image", strL "images",
   strL "docker logs", strL "docker start", strL "docker stop", strL "docker restart"]

/-- `DockerTalent._EXCLUSIONS`. -/
def dockerExclusions : List Str :=
  [strL "remind", strL "timer", strL "email", strL "note", strL "weather", strL "hue",
   strL "light", strL "search", strL "news", strL "todo", strL "task", strL "pomodoro",
   strL "github", strL "repo", strL "pull request"]

/-- `FileOrganizerTalent.keywords`. -/
def fileOrgKeywords : List Str :=
  [strL "organize", strL "sort files", strL "find file", strL "find files",
   strL "large files", strL "list files", strL "file organizer", strL "clean up",
   strL "sort downloads", strL "find pdf", strL "find images", strL "find documents"]

/-- `FileOrganizerTalent._EXCLUSIONS`. -/
def fileOrgExclusions : List Str :=
  [strL "remind", strL "timer", strL "email", strL "note", strL "weather", strL "hue",
   strL "light", strL "search", strL "news", strL "todo", strL "task", strL "pomodoro"]

/-- `GithubTalent.keywords`. -/
def githubKeywords : List Str :=
  [strL "github", strL "repo", strL "repository", strL "pull request", strL "pull requests",
   strL "issue", strL "issues", strL "pr", strL "prs", strL "commit", strL "commits",
   strL "github notifications", strL "my repos"]

/-- `GithubTalent._EXCLUSIONS`. -/
def githubExclusions : List Str :=
  [strL "remind", strL "timer", strL "email", strL "note", strL "weather", strL "hue",
   strL "light", strL "search", strL "news", strL "todo", strL "task", strL "pomodoro"]

/-- `JsonFormatterTalent.keywords`. -/
def jsonFmtKeywords : List Str :=
  [strL "json", strL "format json", strL "prettify json", strL "validate json",
   strL "parse json", strL "minify json", strL "json get", strL "json query"]

/-- `JsonFormatterTalent._EXCLUSIONS`. -/
def jsonFmtExclusions : List Str :=
  [strL "remind", strL "timer", strL "email", strL "note", strL "weather", strL "hue",
   strL "light", strL "search", strL "news", strL "todo", strL "task", strL "pomodoro",
   strL "docker", strL "github", strL "regex"]

/-- `RegexTalent.keywords`. -/
def regexTKeywords : List Str :=
  [strL "regex", strL "regular expression", strL "regexp", strL "pattern match",
   strL "test regex", strL "build regex", strL "explain regex", strL "test pattern"]

/-- `RegexTalent._EXCLUSIONS`. -/
def regexTExclusions : List Str :=
  [strL "remind", strL "timer", strL "email", strL "note", strL "weather", strL "hue",
   strL "light", strL "search", strL "news", strL "todo", strL "task", strL "pomodoro",
   strL "docker", strL "github", strL "repo"]

/-! ### Stock ticker pattern

`StockTalent.can_handle` additionally matches `re.search(r'\b[A-Z]{1,5}\b', command)`
on the original-case command when one of "price", "how is", "check" occurs. -/

/-- A regex word character (`\w`, ASCII range as used by the source's commands). -/
def isWordCh (c : Char) : Bool := c.isAlpha || c.isDigit || c == '_'

/-- Length of the leading run of uppercase ASCII letters. -/
def upperRunLen : Str → Nat
  | [] => 0
  | c :: t => if c.isUpper then upperRunLen t + 1 else 0

/-- True when the list is empty or starts with a non-word character
(the right-hand `\b` of the ticker pattern). -/
def headNonWord : Str → Bool
  | [] => true
  | c :: _ => !(isWordCh c)

/-- Scan for a `\b[A-Z]{1,5}\b` match; `prevIsWord` tracks the character before
the current position for the left-hand word boundary. -/
def tickerScan (prevIsWord : Bool) : Str → Bool
  | [] => false
  | c :: t =>
    (!prevIsWord && c.isUpper &&
      (upperRunLen (c :: t) ≤ 5 : Bool) && headNonWord (List.drop (upperRunLen (c :: t)) (c :: t)))
    || tickerScan (isWordCh c) t

/-- `re.search(r'\b[A-Z]{1,5}\b', command) is not None`. -/
def hasTickerWord (s : Str) : Bool := tickerScan false s

/-- `StockTalent.can_handle`, including the extra ticker branch. -/
def stock_can_handle (command : Str) : Bool :=
  let cmd := lowerStr command
  if matchAny stockExclusions cmd then false
  else if matchAny stockKeywords cmd then true
  else if hasTickerWord command &&
      (containsSub (strL "price") cmd || containsSub (strL "how is") cmd ||
       containsSub (strL "check") cmd) then true
  else false

/-! ### Talent matcher table -/

/-- A talent as the router sees it: its word lists and its `can_handle`. -/
structure TalentMatcher where
  tname : Str
  keywords : List Str
  exclusions : List Str
  canHandle : Str → Bool

def cryptoM : TalentMatcher :=
  ⟨strL "crypto", cryptoKeywords, cryptoExclusions, baseCanHandle cryptoExclusions cryptoKeywords⟩

def dockerM : TalentMatcher :=
  ⟨strL "docker_talent", dockerKeywords, dockerExclusions,
   baseCanHandle dockerExclusions dockerKeywords⟩

def fileOrgM : TalentMatcher :=
  ⟨strL "file_organizer", fileOrgKeywords, fileOrgExclusions,
   baseCanHandle fileOrgExclusions fileOrgKeywords⟩

def githubM : TalentMatcher :=
  ⟨strL "github_talent", githubKeywords, githubExclusions,
   baseCanHandle githubExclusions githubKeywords⟩

def jsonFmtM : TalentMatcher :=
  ⟨strL "json_formatter", jsonFmtKeywords, jsonFmtExclusions,
   baseCanHandle jsonFmtExclusions jsonFmtKeywords⟩

def regexTM : TalentMatcher :=
  ⟨strL "regex_talent", regexTKeywords, regexTExclusions,
   baseCanHandle regexTExclusions regexTKeywords⟩

def clipboardM : TalentMatcher :=
  ⟨strL "clipboard_history", clipboardKeywords, clipboardExclusions,
   baseCanHandle clipboardExclusions clipboardKeywords⟩

def snippetM : TalentMatcher :=
  ⟨strL "code_snippet", snippetKeywords, snippetExclusions,
   baseCanHandle snippetExclusions snippetKeywords⟩

def pomodoroM : TalentMatcher :=
  ⟨strL "pomodoro", pomodoroKeywords, pomodoroExclusions,
   baseCanHandle pomodoroExclusions pomodoroKeywords⟩

def stockM : TalentMatcher :=
  ⟨strL "stock", stockKeywords, stockExclusions, stock_can_handle⟩

def todoM : TalentMatcher :=
  ⟨strL "todo", todoKeywords, todoExclusions, baseCanHandle todoExclusions todoKeywords⟩

def ucM : TalentMatcher :=
  ⟨strL "unit_converter", ucKeywords, ucExclusions, baseCanHandle ucExclusions ucKeywords⟩

/-- All twelve talents of the repository. -/
def allTalents : List TalentMatcher :=
  [cryptoM, dockerM, fileOrgM, githubM, jsonFmtM, regexTM,
   clipboardM, snippetM, pomodoroM, stockM, todoM, ucM]

/-! ### Claims C1 and C2 -/

/-! ## Shared string helpers used by the execute embeddings -/

/-- Python whitespace (`str.strip`, regex `\s`) for the ASCII range. -/
def isSpaceCh (c : Char) : Bool :=
  c == ' ' || c == '\t' || c == '\n' || c == '\r' ||
  c == Char.ofNat 11 || c == Char.ofNat 12

/-- `s.strip()`. -/
def pyStrip (s : Str) : Str :=
  ((s.dropWhile isSpaceCh).reverse.dropWhile isSpaceCh).reverse

/-- `s.lstrip(chars)` — strips any characters of the set from the left. -/
def lstripSet (chars : List Char) (s : Str) : Str :=
  s.dropWhile fun c => chars.contains c

/-- `s.rstrip(chars)`. -/
def rstripSet (chars : List Char) (s : Str) : Str :=
  (s.reverse.dropWhile fun c => chars.contains c).reverse

/-- Length of the leading whitespace run (greedy `\s*` / `\s+`). -/
def wsRunLen (s : Str) : Nat := (s.takeWhile isSpaceCh).length

/-- Leading run of regex word characters (greedy `\w+` capture). -/
def wordRun (s : Str) : Str := s.takeWhile isWordCh

/-- Leading run of ASCII digits (greedy `\d+` capture). -/
def digitRun (s : Str) : Str := s.takeWhile Char.isDigit

/-- `s.split(pat, 1)[1]` when `pat` occurs: the text after the first occurrence. -/
def splitAfterFirst (pat : Str) : Str → Option Str
  | [] => if isPrefixL pat [] then some [] else none
  | c :: t =>
    if isPrefixL pat (c :: t) then some (List.drop pat.length (c :: t))
    else splitAfterFirst pat t

/-- Worker for `removeAll`, specialised to a nonempty pattern.  The fuel
argument (initially the string length, an upper bound on the steps, each of
which consumes at least one character) keeps the recursion structural. -/
def removeAllGo (p : Char) (ps : Str) : Nat → Str → Str
  | _, [] => []
  | 0, s => s
  | fuel + 1, c :: t =>
    if isPrefixL (p :: ps) (c :: t) then removeAllGo p ps fuel (List.drop ps.length t)
    else c :: removeAllGo p ps fuel t

/-- `s.replace(pat, "")` — removes every non-overlapping occurrence, left to
right, continuing after each removed segment.  Every call site in the source
passes a nonempty pattern. -/
def removeAll (pat : Str) (s : Str) : Str :=
  match pat with
  | [] => s
  | p :: ps => removeAllGo p ps s.length s

/-- Worker for `pySplitWs`; the fuel (initially the length) keeps the
recursion structural, each step consuming at least one character. -/
def pySplitWsGo : Nat → Str → List Str
  | _, [] => []
  | 0, _ => []
  | fuel + 1, c :: t =>
    if isSpaceCh c then pySplitWsGo fuel t
    else
      (c :: t.takeWhile fun ch => !isSpaceCh ch) ::
        pySplitWsGo fuel (List.drop (t.takeWhile fun ch => !isSpaceCh ch).length t)

/-- `s.split()` — split on whitespace runs, dropping empty pieces. -/
def pySplitWs (s : Str) : List Str := pySplitWsGo s.length s

/-- `sep.join(parts)`. -/
def joinSep (sep : Str) : List Str → Str
  | [] => []
  | [x] => x
  | x :: y :: t => x ++ sep ++ joinSep sep (y :: t)

/-- `s.split(sep)` for a one-character separator, keeping empty pieces. -/
def splitOnCh (sep : Char) (s : Str) : List Str :=
  match s with
  | [] => [[]]
  | c :: t =>
    let rest := splitOnCh sep t
    if c == sep then [] :: rest
    else match rest with
      | [] => [[c]]
      | r :: rs => (c :: r) :: rs

/-- `s.split("\n")`. -/
def splitNl (s : Str) : List Str := splitOnCh '\n' s

/-- Decimal digits of a natural number. -/
def natDigitsStr (n : Nat) : Str := (Nat.toDigits 10 n)

/-- Python `str(i)` for integers. -/
def intToStr (i : Int) : Str :=
  if i < 0 then '-' :: natDigitsStr i.natAbs else natDigitsStr i.natAbs

/-! ## Local JSON store (claim C4)

`TodoTalent._save` serialises `self._tasks` with `json.dump` and `_load`
re-reads the whole document with `json.load` (a missing or corrupt file
degrades to the empty store).  The file is modelled as a parsed JSON document;
the encoder mirrors the exact dictionary layout the talents write. -/

/-- A parsed JSON document. -/
inductive Jsn where
  | null : Jsn
  | jb : Bool → Jsn
  | ji : Int → Jsn
  | js : Str → Jsn
  | jarr : List Jsn → Jsn
  | jobj : List (Str × Jsn) → Jsn

/-- Key lookup in a JSON object (keys written by the talents are unique). -/
def jsonLookup (k : Str) : List (Str × Jsn) → Option Jsn
  | [] => none
  | (k2, v) :: t => if k2 = k then some v else jsonLookup k t

/-- A task record as written by `TodoTalent._add_task`; `created` and
`completed_at` ISO strings are modelled by the integer clock that produces
them (ISO strings of a monotone clock order lexicographically as integers). -/
structure TodoTask where
  id : Int
  text : Str
  priority : Str
  tag : Option Str
  due : Option Str
  completed : Bool
  created : Int
  completed_at : Option Int
deriving DecidableEq, Repr, Inhabited

/-- The JSON dictionary for one task, in the insertion order of the source;
`completed_at` is present only once `_complete_task` has set it. -/
def encodeTask (t : TodoTask) : Jsn :=
  Jsn.jobj
    ([(strL "id", Jsn.ji t.id),
      (strL "text", Jsn.js t.text),
      (strL "priority", Jsn.js t.priority),
      (strL "tag", match t.tag with | none => Jsn.null | some s => Jsn.js s),
      (strL "due", match t.due with | none => Jsn.null | some s => Jsn.js s),
      (strL "completed", Jsn.jb t.completed),
      (strL "created", Jsn.ji t.created)] ++
     (match t.completed_at with
      | none => []
      | some c => [(strL "completed_at", Jsn.ji c)]))

/-- Reading one task dictionary back into the record.  (`json.load` performs
no validation; documents not produced by `_save` are outside this model.) -/
def decodeTask (j : Jsn) : Option TodoTask :=
  match j with
  | Jsn.jobj fs =>
    match jsonLookup (strL "id") fs, jsonLookup (strL "text") fs,
        jsonLookup (strL "priority") fs, jsonLookup (strL "tag") fs,
        jsonLookup (strL "due") fs, jsonLookup (strL "completed") fs,
        jsonLookup (strL "created") fs with
    | some (Jsn.ji id), some (Jsn.js text), some (Jsn.js priority), some tagv,
        some duev, some (Jsn.jb completed), some (Jsn.ji created) =>
      match tagv, duev with
      | Jsn.null, Jsn.null =>
        mkTask id text priority none none completed created (jsonLookup (strL "completed_at") fs)
      | Jsn.null, Jsn.js d =>
        mkTask id text priority none (some d) completed created (jsonLookup (strL "completed_at") fs)
      | Jsn.js g, Jsn.null =>
        mkTask id text priority (some g) none completed created (jsonLookup (strL "completed_at") fs)
      | Jsn.js g, Jsn.js d =>
        mkTask id text priority (some g) (some d) completed created (jsonLookup (strL "completed_at") fs)
      | _, _ => none
    | _, _, _, _, _, _, _ => none
  | _ => none
where
  mkTask (id : Int) (text priority : Str) (tag due : Option Str) (completed : Bool)
      (created : Int) (compAt : Option Jsn) : Option TodoTask :=
    match compAt with
    | none => some ⟨id, text, priority, tag, due, completed, created, none⟩
    | some (Jsn.ji c) => some ⟨id, text, priority, tag, due, completed, created, some c⟩
    | some _ => none

/-- A snippet record as written by `CodeSnippetTalent._save_snippet`. -/
structure Snippet where
  id : Int
  code : Str
  description : Str
  language : Str
  tag : Str
  created : Int
deriving DecidableEq, Repr, Inhabited

def encodeSnippet (s : Snippet) : Jsn :=
  Jsn.jobj
    [(strL "id", Jsn.ji s.id),
     (strL "code", Jsn.js s.code),
     (strL "description", Jsn.js s.description),
     (strL "language", Jsn.js s.language),
     (strL "tag", Jsn.js s.tag),
     (strL "created", Jsn.ji s.created)]

def decodeSnippet (j : Jsn) : Option Snippet :=
  match j with
  | Jsn.jobj fs =>
    match jsonLookup (strL "id") fs, jsonLookup (strL "code") fs,
        jsonLookup (strL "description") fs, jsonLookup (strL "language") fs,
        jsonLookup (strL "tag") fs, jsonLookup (strL "created") fs with
    | some (Jsn.ji id), some (Jsn.js code), some (Jsn.js description),
        some (Jsn.js language), some (Jsn.js tag), some (Jsn.ji created) =>
      some ⟨id, code, description, language, tag, created⟩
    | _, _, _, _, _, _ => none
  | _ => none

/-- The store file on disk: missing, unparseable, or a saved document. -/
inductive StoreFile where
  | missing : StoreFile
  | corrupt : StoreFile
  | saved : Jsn → StoreFile

def decodeTaskList : List Jsn → Option (List TodoTask)
  | [] => some []
  | j :: t =>
    match decodeTask j, decodeTaskList t with
    | some x, some xs => some (x :: xs)
    | _, _ => none

def decodeSnippetList : List Jsn → Option (List Snippet)
  | [] => some []
  | j :: t =>
    match decodeSnippet j, decodeSnippetList t with
    | some x, some xs => some (x :: xs)
    | _, _ => none

/-- `TodoTalent._save` (successful write): the file now holds the serialised list. -/
def todoSaveFile (tasks : List TodoTask) : StoreFile :=
  StoreFile.saved (Jsn.jarr (tasks.map encodeTask))

/-- `TodoTalent._load` as run by a fresh `__init__`: a missing or corrupt file
leaves the store empty. -/
def todoLoadFile : StoreFile → List TodoTask
  | StoreFile.missing => []
  | StoreFile.corrupt => []
  | StoreFile.saved doc =>
    match doc with
    | Jsn.jarr xs => (decodeTaskList xs).getD []
    | _ => []

/-- `CodeSnippetTalent._save` (successful write). -/
def snippetSaveFile (snips : List Snippet) : StoreFile :=
  StoreFile.saved (Jsn.jarr (snips.map encodeSnippet))

/-- `CodeSnippetTalent._load` in a fresh instance. -/
def snippetLoadFile : StoreFile → List Snippet
  | StoreFile.missing => []
  | StoreFile.corrupt => []
  | StoreFile.saved doc =>
    match doc with
    | Jsn.jarr xs => (decodeSnippetList xs).getD []
    | _ => []


/-! ## Python number formatting

The talents render numbers with f-string format specs (`:g`, `:.2f`, `:,.4f`,
`:+.2f`, `:,`).  These are modelled on exact rationals with the round-half-even
rule CPython uses; the binary-double rounding error of the source is below the
displayed precision for every value in the claims. -/

/-- Exact rational values as raw numerator/denominator pairs.  They are kept
unnormalised so that every operation is elementary `Int`/`Nat` arithmetic,
which the kernel evaluates directly.  Every constructor below produces a
positive denominator and the operations preserve it. -/
structure PyNum where
  num : Int
  den : Int
deriving DecidableEq, Repr

/-- A rational literal `n / d` (with `d > 0`). -/
def pyQ (n d : Int) : PyNum := ⟨n, d⟩

/-- An integer literal. -/
def pyInt (n : Int) : PyNum := ⟨n, 1⟩

def pyAdd (a b : PyNum) : PyNum := ⟨a.num * b.den + b.num * a.den, a.den * b.den⟩

def pySub (a b : PyNum) : PyNum := ⟨a.num * b.den - b.num * a.den, a.den * b.den⟩

def pyMul (a b : PyNum) : PyNum := ⟨a.num * b.num, a.den * b.den⟩

/-- Division, fixing the sign so the denominator stays positive.  (Python
raises `ZeroDivisionError` on a zero divisor; every division in the source is
guarded, so that case is unreachable.) -/
def pyDiv (a b : PyNum) : PyNum :=
  let n := a.num * b.den
  let d := a.den * b.num
  if d < 0 then ⟨-n, -d⟩ else ⟨n, d⟩

def pyNeg (a : PyNum) : PyNum := ⟨-a.num, a.den⟩

def pyLt (a b : PyNum) : Bool := a.num * b.den < b.num * a.den

def pyLe (a b : PyNum) : Bool := a.num * b.den ≤ b.num * a.den

def pyIsZero (a : PyNum) : Bool := a.num == 0

def pyAbs (a : PyNum) : PyNum := if a.num < 0 then pyNeg a else a

/-- Floor to an integer (`Int.fdiv` is floor division). -/
def ratFloorZ (q : PyNum) : Int := Int.fdiv q.num q.den

/-- Python `int(x)` on a float value: truncation toward zero. -/
def pyTrunc (q : PyNum) : Int := Int.tdiv q.num q.den

/-- `10 ^ n` as a rational. -/
def qpow10N (n : Nat) : PyNum := ⟨Int.ofNat (10 ^ n), 1⟩

/-- `10 ^ e` for an integer exponent. -/
def qpow10Z (e : Int) : PyNum :=
  if 0 ≤ e then ⟨Int.ofNat (10 ^ e.toNat), 1⟩ else ⟨1, Int.ofNat (10 ^ (-e).toNat)⟩

/-- Round to the nearest integer, ties to even (CPython float formatting). -/
def roundHalfEvenQ (q : PyNum) : Int :=
  let f : Int := ratFloorZ q
  let r : PyNum := pySub q (pyInt f)
  if pyLt r (pyQ 1 2) then f
  else if pyLt (pyQ 1 2) r then f + 1
  else if f % 2 = 0 then f else f + 1

/-- Insert thousands separators into a reversed digit string. -/
def group3Rev : Str → Str
  | d1 :: d2 :: d3 :: d4 :: rest => d1 :: d2 :: d3 :: ',' :: group3Rev (d4 :: rest)
  | l => l

/-- Thousands grouping of a digit string (the `,` format option). -/
def groupDigits (ds : Str) : Str := (group3Rev ds.reverse).reverse

/-- Left-pad with zeros to a fixed width. -/
def padLeftZeros (k : Nat) (ds : Str) : Str := List.replicate (k - ds.length) '0' ++ ds

/-- Fixed-point rendering of a nonnegative rational (`{:.prec f}`). -/
def formatFixedNN (prec : Nat) (grouping : Bool) (q : PyNum) : Str :=
  let n : Nat := (roundHalfEvenQ (pyMul q (qpow10N prec))).toNat
  let ip := n / 10 ^ prec
  let fp := n % 10 ^ prec
  let ipStr := if grouping then groupDigits (natDigitsStr ip) else natDigitsStr ip
  if prec = 0 then ipStr
  else ipStr ++ '.' :: padLeftZeros prec (natDigitsStr fp)

/-- `f"{q:.prec f}"`, with optional thousands grouping (`{:,.prec f}`). -/
def formatFixed (prec : Nat) (grouping : Bool) (q : PyNum) : Str :=
  if pyLt q (pyInt 0) then '-' :: formatFixedNN prec grouping (pyNeg q)
  else formatFixedNN prec grouping q

/-- `f"{q:+.prec f}"` — like `formatFixed` but with a forced sign. -/
def formatFixedPlus (prec : Nat) (q : PyNum) : Str :=
  if pyLt q (pyInt 0) then formatFixed prec false q else '+' :: formatFixed prec false q

/-- Strip trailing zero characters. -/
def rstrip0 (s : Str) : Str := (s.reverse.dropWhile fun c => c == '0').reverse

/-- Pad an exponent to the minimum two digits of the `e+XX` form. -/
def pad2 (ds : Str) : Str := if ds.length < 2 then '0' :: ds else ds

/-- Decimal exponent of a positive rational: the unique `e` with
`10^e ≤ q < 10^(e+1)` (derived from the digit counts of numerator and
denominator, which bound the quotient within one decade). -/
def decExponent (aq : PyNum) : Int :=
  let a := (natDigitsStr aq.num.natAbs).length
  let b := (natDigitsStr aq.den.natAbs).length
  let e0 : Int := (a : Int) - (b : Int)
  if pyLt aq (qpow10Z e0) then e0 - 1 else e0

/-- General-format rendering (`%g`) of a positive rational with `prec`
significant digits: fixed notation when the exponent lies in `[-4, prec)`,
scientific otherwise, trailing zeros stripped. -/
def formatGNN (prec : Nat) (aq : PyNum) : Str :=
  let e := decExponent aq
  let m0 := roundHalfEvenQ (pyDiv aq (qpow10Z (e - ((prec : Int) - 1))))
  let bump := m0 == (10 : Int) ^ prec
  let m := if bump then (10 : Int) ^ (prec - 1) else m0
  let e2 := if bump then e + 1 else e
  let ds := natDigitsStr m.toNat
  if -4 ≤ e2 ∧ e2 < (prec : Int) then
    if 0 ≤ e2 then
      let k := e2.toNat + 1
      let ip := ds.take k
      let fp := rstrip0 (ds.drop k)
      if fp.isEmpty then ip else ip ++ '.' :: fp
    else
      '0' :: '.' :: (List.replicate ((-e2).toNat - 1) '0' ++ rstrip0 ds)
  else
    let d1 := ds.take 1
    let rest := rstrip0 (ds.drop 1)
    let mant := if rest.isEmpty then d1 else d1 ++ '.' :: rest
    mant ++ 'e' :: (if e2 < 0 then '-' else '+') :: pad2 (natDigitsStr e2.natAbs)

/-- `f"{q:g}"` with precision `prec` (`prec = 6` for the bare `:g` spec). -/
def formatG (prec : Nat) (q : PyNum) : Str :=
  if pyIsZero q then strL "0"
  else if pyLt q (pyInt 0) then '-' :: formatGNN prec (pyNeg q)
  else formatGNN prec q

/-- `f"{i:,}"` — integer with thousands grouping. -/
def intGrouped (i : Int) : Str :=
  if i < 0 then '-' :: groupDigits (natDigitsStr i.natAbs)
  else groupDigits (natDigitsStr i.natAbs)

/-- `f"{s:<w}"` — left-justify in `w` columns. -/
def padRightW (w : Nat) (s : Str) : Str := s ++ List.replicate (w - s.length) ' '

/-- `f"{s:>w}"` — right-justify in `w` columns. -/
def padLeftW (w : Nat) (s : Str) : Str := List.replicate (w - s.length) ' ' ++ s



/-! ## Regex primitives shared by the execute embeddings

Each talent matches a handful of fixed regular expressions.  They are embedded
pattern-by-pattern with Python's backtracking priorities: alternations try
branches left to right, `\s+`/`\w+`/`[\d,.]+`/`\d+` runs are greedy (each is
followed in every pattern by a token disjoint from its character class, so the
greedy-maximal run is exact), and `re.search` scans start positions left to
right. -/

/-- Ordered alternation: try each literal branch, with full backtracking into
the continuation `k`. -/
def firstAlt {α : Type} (alts : List Str) (s : Str) (k : Str → Option α) : Option α :=
  match alts with
  | [] => none
  | a :: rest => (if isPrefixL a s then k (List.drop a.length s) else none) <|> firstAlt rest s k

/-- `\s+` followed by a non-whitespace token: consume the maximal run. -/
def wsPlus (s : Str) : Option Str :=
  let k := wsRunLen s
  if k = 0 then none else some (List.drop k s)

/-- `re.search`: try match function `f` at each start position, left to right. -/
def searchPos {α : Type} (f : Str → Option α) : Str → Option α
  | [] => f []
  | c :: t => f (c :: t) <|> searchPos f t

/-- Greedy nonempty `\w+` capture with its remainder. -/
def wordPlus (s : Str) : Option (Str × Str) :=
  let w := wordRun s
  if w.isEmpty then none else some (w, List.drop w.length s)

/-- Greedy nonempty `\d+` capture with its remainder. -/
def digitsPlus (s : Str) : Option (Str × Str) :=
  let d := digitRun s
  if d.isEmpty then none else some (d, List.drop d.length s)

/-- Greedy nonempty `[\d,.]+` capture with its remainder. -/
def numRunPlus (s : Str) : Option (Str × Str) :=
  let d := s.takeWhile fun c => c.isDigit || c == ',' || c == '.'
  if d.isEmpty then none else some (d, List.drop d.length s)

/-! ## UnitConverterTalent (claims C3, C8) -/

/-- Generic association-list lookup (Python `dict` access; the dictionaries
built by the source have pairwise-distinct keys). -/
def alistFind {α : Type} (k : Str) : List (Str × α) → Option α
  | [] => none
  | (k2, v) :: t => if k2 = k then some v else alistFind k t

/-- Length units (base: meter), from `_build_conversion_tables`. -/
def lengthUnits : List (String × PyNum) :=
  [("meter", pyInt 1),
   ("meters", pyInt 1),
   ("m", pyInt 1),
   ("kilometer", pyInt 1000),
   ("kilometers", pyInt 1000),
   ("km", pyInt 1000),
   ("centimeter", pyQ 1 100),
   ("centimeters", pyQ 1 100),
   ("cm", pyQ 1 100),
   ("millimeter", pyQ 1 1000),
   ("millimeters", pyQ 1 1000),
   ("mm", pyQ 1 1000),
   ("mile", pyQ 201168 125),
   ("miles", pyQ 201168 125),
   ("mi", pyQ 201168 125),
   ("yard", pyQ 1143 1250),
   ("yards", pyQ 1143 1250),
   ("yd", pyQ 1143 1250),
   ("foot", pyQ 381 1250),
   ("feet", pyQ 381 1250),
   ("ft", pyQ 381 1250),
   ("inch", pyQ 127 5000),
   ("inches", pyQ 127 5000),
   ("in", pyQ 127 5000),
   ("nautical_mile", pyInt 1852),
   ("nautical_miles", pyInt 1852),
   ("nmi", pyInt 1852)]

/-- Weight units (base: kilogram). -/
def weightUnits : List (String × PyNum) :=
  [("kilogram", pyInt 1),
   ("kilograms", pyInt 1),
   ("kg", pyInt 1),
   ("gram", pyQ 1 1000),
   ("grams", pyQ 1 1000),
   ("g", pyQ 1 1000),
   ("milligram", pyQ 1 1000000),
   ("milligrams", pyQ 1 1000000),
   ("mg", pyQ 1 1000000),
   ("pound", pyQ 56699 125000),
   ("pounds", pyQ 56699 125000),
   ("lb", pyQ 56699 125000),
   ("lbs", pyQ 56699 125000),
   ("ounce", pyQ 56699 2000000),
   ("ounces", pyQ 56699 2000000),
   ("oz", pyQ 56699 2000000),
   ("ton", pyQ 181437 200),
   ("tons", pyQ 181437 200),
   ("metric_ton", pyInt 1000),
   ("tonne", pyInt 1000),
   ("tonnes", pyInt 1000),
   ("stone", pyQ 635029 100000),
   ("stones", pyQ 635029 100000),
   ("st", pyQ 635029 100000)]

/-- Volume units (base: liter). -/
def volumeUnits : List (String × PyNum) :=
  [("liter", pyInt 1),
   ("liters", pyInt 1),
   ("l", pyInt 1),
   ("litre", pyInt 1),
   ("litres", pyInt 1),
   ("milliliter", pyQ 1 1000),
   ("milliliters", pyQ 1 1000),
   ("ml", pyQ 1 1000),
   ("gallon", pyQ 378541 100000),
   ("gallons", pyQ 378541 100000),
   ("gal", pyQ 378541 100000),
   ("quart", pyQ 946353 1000000),
   ("quarts", pyQ 946353 1000000),
   ("qt", pyQ 946353 1000000),
   ("pint", pyQ 59147 125000),
   ("pints", pyQ 59147 125000),
   ("pt", pyQ 59147 125000),
   ("cup", pyQ 59147 250000),
   ("cups", pyQ 59147 250000),
   ("fluid_ounce", pyQ 59147 2000000),
   ("fluid_ounces", pyQ 59147 2000000),
   ("floz", pyQ 59147 2000000),
   ("tablespoon", pyQ 36967 2500000),
   ("tablespoons", pyQ 36967 2500000),
   ("tbsp", pyQ 36967 2500000),
   ("teaspoon", pyQ 123223 25000000),
   ("teaspoons", pyQ 123223 25000000),
   ("tsp", pyQ 123223 25000000)]

/-- Speed units (base: m/s). -/
def speedUnits : List (String × PyNum) :=
  [("mps", pyInt 1),
   ("m/s", pyInt 1),
   ("kph", pyQ 138889 500000),
   ("km/h", pyQ 138889 500000),
   ("kmh", pyQ 138889 500000),
   ("mph", pyQ 1397 3125),
   ("knot", pyQ 128611 250000),
   ("knots", pyQ 128611 250000),
   ("kn", pyQ 128611 250000)]

/-- Data units (base: byte). -/
def dataUnits : List (String × PyNum) :=
  [("byte", pyInt 1),
   ("bytes", pyInt 1),
   ("b", pyInt 1),
   ("kilobyte", pyInt 1024),
   ("kilobytes", pyInt 1024),
   ("kb", pyInt 1024),
   ("megabyte", pyInt 1048576),
   ("megabytes", pyInt 1048576),
   ("mb", pyInt 1048576),
   ("gigabyte", pyInt 1073741824),
   ("gigabytes", pyInt 1073741824),
   ("gb", pyInt 1073741824),
   ("terabyte", pyInt 1099511627776),
   ("terabytes", pyInt 1099511627776),
   ("tb", pyInt 1099511627776)]

/-- Time units (base: second). -/
def timeUnits : List (String × PyNum) :=
  [("second", pyInt 1),
   ("seconds", pyInt 1),
   ("sec", pyInt 1),
   ("minute", pyInt 60),
   ("minutes", pyInt 60),
   ("min", pyInt 60),
   ("hour", pyInt 3600),
   ("hours", pyInt 3600),
   ("hr", pyInt 3600),
   ("day", pyInt 86400),
   ("days", pyInt 86400),
   ("week", pyInt 604800),
   ("weeks", pyInt 604800),
   ("month", pyInt 2592000),
   ("months", pyInt 2592000),
   ("year", pyInt 31536000),
   ("years", pyInt 31536000)]

/-- Temperature aliases (special-cased, no base-unit factor). -/
def tempUnits : List String := ["celsius", "c", "fahrenheit", "f", "kelvin", "k"]

/-- `_UNIT_ALIASES`: alias → (canonical name, category).  The source stores
the alias itself as its canonical name. -/
def unitAliases : List (Str × (Str × Str)) :=
  (lengthUnits.map fun p => (strL p.1, (strL p.1, strL "length"))) ++
  (weightUnits.map fun p => (strL p.1, (strL p.1, strL "weight"))) ++
  (volumeUnits.map fun p => (strL p.1, (strL p.1, strL "volume"))) ++
  (speedUnits.map fun p => (strL p.1, (strL p.1, strL "speed"))) ++
  (dataUnits.map fun p => (strL p.1, (strL p.1, strL "data"))) ++
  (timeUnits.map fun p => (strL p.1, (strL p.1, strL "time"))) ++
  (tempUnits.map fun u => (strL u, (strL u, strL "temperature")))

/-- `_CONVERSIONS`: canonical name → factor to the category's base unit. -/
def conversionsTable : List (Str × PyNum) :=
  (lengthUnits ++ weightUnits ++ volumeUnits ++ speedUnits ++ dataUnits ++ timeUnits).map
    fun p => (strL p.1, p.2)

/-- `str.upper()` (ASCII). -/
def upperStr (s : Str) : Str := s.map Char.toUpper

/-- `_get_currency_codes`. -/
def currencyCodes : List Str :=
  [strL "USD", strL "EUR", strL "GBP", strL "JPY", strL "CAD", strL "AUD",
   strL "CHF", strL "CNY", strL "INR", strL "BRL", strL "KRW", strL "MXN",
   strL "NZD", strL "SGD", strL "HKD", strL "NOK", strL "SEK", strL "DKK",
   strL "PLN", strL "ZAR", strL "RUB", strL "TRY", strL "THB", strL "IDR"]

/-- Result of the one `requests.get` call of `_convert_currency`. -/
inductive CurrencyOutcome where
  | reqError : Str → CurrencyOutcome
  | response : Int → List (Str × PyNum) → CurrencyOutcome

/-- Oracle for the currency-rate HTTP API, keyed by the from-currency code. -/
def CurrencyApi : Type := Str → CurrencyOutcome

/-- The raw captures of `_parse_conversion`: either a numeric string still to
be passed through `float`, or the implicit quantity 1 of the
"how many X in a Y" form. -/
inductive ConvParse where
  | withNum : Str → Str → Str → ConvParse
  | oneUnit : Str → Str → ConvParse

/-- Pattern `convert\s+([\d,.]+)\s+(\w+)\s+(?:to|into|in)\s+(\w+)` at one
start position. -/
def matchConvertAt (s : Str) : Option (Str × Str × Str) :=
  if isPrefixL (strL "convert") s then
    match wsPlus (List.drop 7 s) with
    | none => none
    | some s2 =>
      match numRunPlus s2 with
      | none => none
      | some (num, s3) =>
        match wsPlus s3 with
        | none => none
        | some s4 =>
          match wordPlus s4 with
          | none => none
          | some (w1, s5) =>
            match wsPlus s5 with
            | none => none
            | some s6 =>
              firstAlt [strL "to", strL "into", strL "in"] s6 fun s7 =>
                match wsPlus s7 with
                | none => none
                | some s8 =>
                  match wordPlus s8 with
                  | none => none
                  | some (w2, _) => some (num, w1, w2)
  else none

/-- Pattern `([\d,.]+)\s+(\w+)\s+(?:to|into|in)\s+(\w+)` at one position. -/
def matchPlainConvAt (s : Str) : Option (Str × Str × Str) :=
  match numRunPlus s with
  | none => none
  | some (num, s3) =>
    match wsPlus s3 with
    | none => none
    | some s4 =>
      match wordPlus s4 with
      | none => none
      | some (w1, s5) =>
        match wsPlus s5 with
        | none => none
        | some s6 =>
          firstAlt [strL "to", strL "into", strL "in"] s6 fun s7 =>
            match wsPlus s7 with
            | none => none
            | some s8 =>
              match wordPlus s8 with
              | none => none
              | some (w2, _) => some (num, w1, w2)

/-- Pattern `how\s+many\s+(\w+)\s+in\s+([\d,.]+)\s+(\w+)` at one position. -/
def matchHowManyNumAt (s : Str) : Option (Str × Str × Str) :=
  if isPrefixL (strL "how") s then
    match wsPlus (List.drop 3 s) with
    | none => none
    | some s2 =>
      if isPrefixL (strL "many") s2 then
        match wsPlus (List.drop 4 s2) with
        | none => none
        | some s3 =>
          match wordPlus s3 with
          | none => none
          | some (w1, s4) =>
            match wsPlus s4 with
            | none => none
            | some s5 =>
              if isPrefixL (strL "in") s5 then
                match wsPlus (List.drop 2 s5) with
                | none => none
                | some s6 =>
                  match numRunPlus s6 with
                  | none => none
                  | some (num, s7) =>
                    match wsPlus s7 with
                    | none => none
                    | some s8 =>
                      match wordPlus s8 with
                      | none => none
                      | some (w2, _) => some (w1, num, w2)
              else none
      else none
  else none

/-- Pattern `how\s+many\s+(\w+)\s+in\s+(?:a|an|one)\s+(\w+)` at one position. -/
def matchHowManyOneAt (s : Str) : Option (Str × Str) :=
  if isPrefixL (strL "how") s then
    match wsPlus (List.drop 3 s) with
    | none => none
    | some s2 =>
      if isPrefixL (strL "many") s2 then
        match wsPlus (List.drop 4 s2) with
        | none => none
        | some s3 =>
          match wordPlus s3 with
          | none => none
          | some (w1, s4) =>
            match wsPlus s4 with
            | none => none
            | some s5 =>
              if isPrefixL (strL "in") s5 then
                match wsPlus (List.drop 2 s5) with
                | none => none
                | some s6 =>
                  firstAlt [strL "a", strL "an", strL "one"] s6 fun s7 =>
                    match wsPlus s7 with
                    | none => none
                    | some s8 =>
                      match wordPlus s8 with
                      | none => none
                      | some (w2, _) => some (w1, w2)
              else none
      else none
  else none

/-- `_parse_conversion`: the four regexes, tried in source order. -/
def parseConversionRaw (cmd : Str) : Option ConvParse :=
  ((searchPos matchConvertAt cmd).map fun (n, f, t) => ConvParse.withNum n f t) <|>
  ((searchPos matchPlainConvAt cmd).map fun (n, f, t) => ConvParse.withNum n f t) <|>
  ((searchPos matchHowManyNumAt cmd).map fun (w1, n, w2) => ConvParse.withNum n w2 w1) <|>
  ((searchPos matchHowManyOneAt cmd).map fun (w1, w2) => ConvParse.oneUnit w2 w1)

/-- Numeric value of a digit string. -/
def digitsVal (s : Str) : Nat := s.foldl (fun a c => a * 10 + (c.toNat - 48)) 0

/-- Python `float(s)` restricted to strings of digits and dots — exactly the
alphabet the `[\d,.]+` capture can produce after commas are removed.
`none` models the `ValueError` that `float` raises on malformed input. -/
def floatOfDigitsDots (s : Str) : Option PyNum :=
  if s.any (fun c => !(c.isDigit || c == '.')) then none
  else
    match splitOnCh '.' s with
    | [ip] => if ip.isEmpty then none else some (pyInt (digitsVal ip))
    | [ip, fp] =>
      if ip.isEmpty && fp.isEmpty then none
      else some (pyAdd (pyInt (digitsVal ip)) (pyDiv (pyInt (digitsVal fp)) (qpow10N fp.length)))
    | _ => none

/-- Python `round(x, 2)` (ties to even). -/
def roundQ (nd : Nat) (q : PyNum) : PyNum :=
  pyDiv (pyInt (roundHalfEvenQ (pyMul q (qpow10N nd)))) (qpow10N nd)

/-- `_convert_temperature` — via Celsius, rounded to 2 decimals. -/
def convertTemperature (value : PyNum) (fromName toName : Str) : Option PyNum :=
  let c? : Option PyNum :=
    if fromName = strL "celsius" then some value
    else if fromName = strL "fahrenheit" then
      some (pyDiv (pyMul (pySub value (pyInt 32)) (pyInt 5)) (pyInt 9))
    else if fromName = strL "kelvin" then some (pySub value (pyQ 27315 100))
    else none
  match c? with
  | none => none
  | some c =>
    if toName = strL "celsius" then some (roundQ 2 c)
    else if toName = strL "fahrenheit" then
      some (roundQ 2 (pyAdd (pyDiv (pyMul c (pyInt 9)) (pyInt 5)) (pyInt 32)))
    else if toName = strL "kelvin" then some (roundQ 2 (pyAdd c (pyQ 27315 100)))
    else none

/-- `_convert_unit`. -/
def convertUnitUC (value : PyNum) (fromUnit toUnit : Str) : ExecResult :=
  match alistFind fromUnit unitAliases with
  | none => resFail (strL "Unknown unit: \x27" ++ fromUnit ++ strL "\x27")
  | some (fromName, fromCat) =>
    match alistFind toUnit unitAliases with
    | none => resFail (strL "Unknown unit: \x27" ++ toUnit ++ strL "\x27")
    | some (toName, toCat) =>
      if fromCat ≠ toCat then
        resFail (strL "Cannot convert " ++ fromName ++ strL " (" ++ fromCat ++
          strL ") to " ++ toName ++ strL " (" ++ toCat ++
          strL "). Units must be in the same category.")
      else if fromCat = strL "temperature" then
        match convertTemperature value fromName toName with
        | none => resFail (strL "Cannot convert " ++ fromName ++ strL " to " ++ toName ++ strL ".")
        | some r =>
          resOk (strL "unit_converter")
            (formatG 6 value ++ strL " " ++ fromName ++ strL " = " ++
             formatG 6 r ++ strL " " ++ toName)
      else
        match alistFind fromName conversionsTable with
        | none => resFail (strL "Conversion not available for " ++ fromName ++
            strL " to " ++ toName ++ strL ".")
        | some fromToBase =>
          match alistFind toName conversionsTable with
          | none => resFail (strL "Conversion not available for " ++ fromName ++
              strL " to " ++ toName ++ strL ".")
          | some toToBase =>
            let result := pyDiv (pyMul value fromToBase) toToBase
            let resultStr :=
              if pyLe (pyQ 1 100) (pyAbs result) then
                rstripSet ['.'] (rstripSet ['0'] (formatFixed 4 true result))
              else formatG 8 result
            resOk (strL "unit_converter")
              (formatG 6 value ++ strL " " ++ fromName ++ strL " = " ++
               resultStr ++ strL " " ++ toName)

/-- `_convert_currency` against the HTTP oracle. -/
def convertCurrencyUC (value : PyNum) (fromCode toCode : Str) (api : CurrencyApi) : ExecResult :=
  match api fromCode with
  | CurrencyOutcome.reqError e => resFail (strL "Currency API error: " ++ e)
  | CurrencyOutcome.response status rates =>
    if status ≠ 200 then resFail (strL "Currency API unavailable.")
    else
      match alistFind toCode rates with
      | none => resFail (strL "Exchange rate not found for " ++ fromCode ++
          strL " to " ++ toCode ++ strL ".")
      | some rate =>
        resOk (strL "unit_converter")
          (formatFixed 2 true value ++ strL " " ++ fromCode ++ strL " = " ++
           formatFixed 2 true (pyMul value rate) ++ strL " " ++ toCode ++
           strL "\n  Rate: 1 " ++ fromCode ++ strL " = " ++
           formatFixed 4 false rate ++ strL " " ++ toCode)

/-- The message of the parse-failure branch of `UnitConverterTalent.execute`. -/
def ucUsageMsg : Str :=
  strL "Please use format: \x27convert 100 miles to kilometers\x27\nSupported: length, weight, temperature, volume, speed, data, time, currency."

/-- Dispatch after a successful parse: currency pair or unit pair. -/
def ucDispatch (value : PyNum) (fromU toU : Str) (api : CurrencyApi) : ExecResult :=
  let fromUp := upperStr fromU
  let toUp := upperStr toU
  if currencyCodes.contains fromUp && currencyCodes.contains toUp then
    convertCurrencyUC value fromUp toUp api
  else convertUnitUC value fromU toU

/-- `UnitConverterTalent.execute`.  `none` models the uncaught `ValueError`
that `float` raises when the `[\d,.]+` capture is not a valid float literal
(e.g. two dots); every other path returns a result. -/
def ucExecute (command : Str) (api : CurrencyApi) : Option ExecResult :=
  let cmd := pyStrip (lowerStr command)
  match parseConversionRaw cmd with
  | none => some (resFail ucUsageMsg)
  | some (ConvParse.withNum numStr fromU toU) =>
    match floatOfDigitsDots (removeAll (strL ",") numStr) with
    | none => none
    | some value => some (ucDispatch value fromU toU api)
  | some (ConvParse.oneUnit fromU toU) => some (ucDispatch (pyInt 1) fromU toU api)



/-! ## PomodoroTalent (claims C3, C7, C9) -/

/-- The pomodoro phase (`self._state`). -/
inductive PomState where
  | idle : PomState
  | working : PomState
  | short_break : PomState
  | long_break : PomState
deriving DecidableEq, Repr

/-- The mutable fields of `PomodoroTalent`.  The `threading.Timer` handle is
opaque: only whether one is held matters to the state transitions. -/
structure PomodoroState where
  timer : Option Unit
  state : PomState
  session_count : Int
  started_at : PyNum
  duration : Int
  notify_cb : Bool
deriving DecidableEq, Repr

/-- The configuration mapping read by the pomodoro talent
(`self._config.get(key, default)` at each use site). -/
structure PomodoroConfig where
  work_minutes : Option Int
  short_break_minutes : Option Int
  long_break_minutes : Option Int
  sessions_before_long_break : Option Int
deriving DecidableEq, Repr

/-- `_cancel_timer`. -/
def pomCancelTimer (st : PomodoroState) : PomodoroState :=
  match st.timer with
  | some _ => { st with timer := none }
  | none => st

/-- `remaining // 60` and `remaining % 60` on the clamped remaining seconds. -/
def pomRemaining (now : PyNum) (st : PomodoroState) : Nat :=
  let elapsed := pyTrunc (pySub now st.started_at)
  (st.duration - elapsed).toNat

/-- `_stop`. -/
def pomStop (st : PomodoroState) : ExecResult × PomodoroState :=
  if st.state = PomState.idle then
    (resOk (strL "pomodoro") (strL "No active pomodoro session."), st)
  else
    let prev := st.state
    let st1 := { pomCancelTimer st with state := PomState.idle }
    if prev = PomState.working then
      (resOk (strL "pomodoro")
        (strL "Work session stopped. Completed " ++ intToStr st.session_count ++
         strL " session(s) total."), st1)
    else (resOk (strL "pomodoro") (strL "Break stopped."), st1)

/-- `_status`. -/
def pomStatus (now : PyNum) (st : PomodoroState) : ExecResult :=
  if st.state = PomState.idle then
    resOk (strL "pomodoro")
      (strL "No active session. " ++ intToStr st.session_count ++
       strL " session(s) completed today.")
  else
    let remaining := pomRemaining now st
    let label :=
      match st.state with
      | PomState.working => strL "Focused work"
      | PomState.short_break => strL "Short break"
      | PomState.long_break => strL "Long break"
      | PomState.idle => strL "idle"
    resOk (strL "pomodoro")
      (label ++ strL " in progress — " ++ natDigitsStr (remaining / 60) ++
       strL "m " ++ natDigitsStr (remaining % 60) ++ strL "s remaining.\nSessions completed: " ++
       intToStr st.session_count)

/-- `_start_work`. -/
def pomStartWork (cfg : PomodoroConfig) (now : PyNum) (st : PomodoroState) :
    ExecResult × PomodoroState :=
  if st.state = PomState.working then
    let remaining := pomRemaining now st
    (resOk (strL "pomodoro")
      (strL "Already in a work session! " ++ natDigitsStr (remaining / 60) ++
       strL "m " ++ natDigitsStr (remaining % 60) ++ strL "s remaining."), st)
  else
    let workMin := cfg.work_minutes.getD 25
    let st1 := { st with duration := workMin * 60, state := PomState.working, started_at := now }
    let st2 := { pomCancelTimer st1 with timer := some () }
    let st3 := { st2 with session_count := st2.session_count + 1 }
    (resOk (strL "pomodoro")
      (strL "Pomodoro #" ++ intToStr st3.session_count ++ strL " started! Focus for " ++
       intToStr workMin ++ strL " minutes."), st3)

/-- `_start_break`.  `none` models the uncaught `ZeroDivisionError` when a
configuration sets `sessions_before_long_break` to zero while sessions have
been completed. -/
def pomStartBreak (cfg : PomodoroConfig) (now : PyNum) (st : PomodoroState) :
    Option (ExecResult × PomodoroState) :=
  if st.state = PomState.short_break ∨ st.state = PomState.long_break then
    let remaining := pomRemaining now st
    some (resOk (strL "pomodoro")
      (strL "Already on a break! " ++ natDigitsStr (remaining / 60) ++
       strL "m " ++ natDigitsStr (remaining % 60) ++ strL "s remaining."), st)
  else
    let longEvery := cfg.sessions_before_long_break.getD 4
    if 0 < st.session_count ∧ longEvery = 0 then none
    else
      let isLong := 0 < st.session_count ∧ st.session_count % longEvery = 0
      let breakMin := if isLong then cfg.long_break_minutes.getD 15
        else cfg.short_break_minutes.getD 5
      let label := if isLong then strL "Long break" else strL "Short break"
      let newState := if isLong then PomState.long_break else PomState.short_break
      let st1 := { st with state := newState, duration := breakMin * 60, started_at := now }
      let st2 := { pomCancelTimer st1 with timer := some () }
      some (resOk (strL "pomodoro")
        (label ++ strL " started! Relax for " ++ intToStr breakMin ++ strL " minutes."), st2)

/-- The phrase lists of `PomodoroTalent.execute`, in source order. -/
def pomStopPhrases : List Str :=
  [strL "stop pomodoro", strL "cancel pomodoro", strL "stop timer",
   strL "cancel timer", strL "end session", strL "stop focus"]

def pomStatusPhrases : List Str :=
  [strL "pomodoro status", strL "timer status", strL "how much time",
   strL "time left", strL "time remaining"]

def pomStartPhrases : List Str :=
  [strL "start", strL "begin", strL "pomodoro", strL "focus"]

/-- `PomodoroTalent.execute`.  The context only supplies the notification
callback, recorded in the state. -/
def pomExecute (command : Str) (ctxNotify : Bool) (cfg : PomodoroConfig) (now : PyNum)
    (st0 : PomodoroState) : Option (ExecResult × PomodoroState) :=
  let cmd := pyStrip (lowerStr command)
  let st := { st0 with notify_cb := ctxNotify }
  if matchAny pomStopPhrases cmd then some (pomStop st)
  else if matchAny pomStatusPhrases cmd then some (pomStatus now st, st)
  else if containsSub (strL "take a break") cmd || containsSub (strL "start break") cmd then
    pomStartBreak cfg now st
  else if matchAny pomStartPhrases cmd then some (pomStartWork cfg now st)
  else some (pomStatus now st, st)

/-! ## ClipboardHistoryTalent (claims C3, C7, C10) -/

/-- One history record `{"text": ..., "timestamp": ...}`. -/
structure ClipEntry where
  text : Str
  timestamp : Str
deriving DecidableEq, Repr, Inhabited

/-- The mutable fields of `ClipboardHistoryTalent`. -/
structure ClipState where
  history : List ClipEntry
  max_entries : Nat
  running : Bool
  monitor_thread : Option Unit
  last_content : Str
deriving DecidableEq, Repr

/-- The outcome of one `pyperclip.paste()` call. -/
inductive PasteOutcome where
  | ok : Str → PasteOutcome
  | error : PasteOutcome
deriving DecidableEq, Repr

/-- Environment oracle for one `execute` call: pyperclip availability, the
current clipboard read, the copy-call outcome, and the `%H:%M:%S` stamp. -/
structure ClipEnv where
  hasPyperclip : Bool
  paste : PasteOutcome
  copyErr : Option Str
  nowStr : Str
deriving DecidableEq, Repr

/-- `_check_clipboard`: records new clipboard content at the head of the
history and trims to `max_entries`; read errors are swallowed. -/
def clipCheck (env : ClipEnv) (st : ClipState) : ClipState :=
  if !env.hasPyperclip then st
  else
    match env.paste with
    | PasteOutcome.error => st
    | PasteOutcome.ok content =>
      if !content.isEmpty && content ≠ st.last_content then
        let st1 := { st with last_content := content,
                             history := ⟨content, env.nowStr⟩ :: st.history }
        if st1.max_entries < st1.history.length then
          { st1 with history := st1.history.take st1.max_entries }
        else st1
      else st

/-- Newline-to-space replacement used for previews. -/
def nlToSpace (c : Char) : Char := if c == '\n' then ' ' else c

/-- The success message of `_paste_item`. -/
def pasteOkResponse (e : ClipEntry) : Str :=
  strL "Copied to clipboard: " ++ (e.text.take 80).map nlToSpace ++
    (if 80 < e.text.length then strL "..." else [])

/-- `_paste_item` (the argument is the already 0-based index). -/
def clipPasteItem (index : Int) (env : ClipEnv) (st : ClipState) :
    ExecResult × ClipState :=
  let st1 := clipCheck env st
  if index < 0 ∨ (st1.history.length : Int) ≤ index then
    (resFail (strL "No clipboard entry at position " ++ intToStr (index + 1) ++ strL "."), st1)
  else
    let entry := st1.history.getD index.toNat default
    match env.copyErr with
    | some e => (resFail (strL "Failed to copy to clipboard: " ++ e), st1)
    | none => (resOk (strL "clipboard") (pasteOkResponse entry), st1)

/-- The 60-character preview used by `_show_history` and `_search`. -/
def preview60 (t : Str) : Str :=
  (t.take 60).map nlToSpace ++ (if 60 < t.length then strL "..." else [])

/-- `_show_history`. -/
def clipShowHistory (env : ClipEnv) (st : ClipState) : ExecResult × ClipState :=
  let st1 := clipCheck env st
  if st1.history.isEmpty then (resOk (strL "clipboard") (strL "Clipboard history is empty."), st1)
  else
    let hdr := strL "Clipboard History (" ++ natDigitsStr st1.history.length ++
      strL " entries):\n"
    let entryLines := (st1.history.take 15).enum.map fun p =>
      strL "  " ++ natDigitsStr (p.1 + 1) ++ strL ". " ++ preview60 p.2.text ++
        strL "  (" ++ p.2.timestamp ++ strL ")"
    let more :=
      if 15 < st1.history.length then
        [strL "\n  ...and " ++ natDigitsStr (st1.history.length - 15) ++ strL " older entries"]
      else []
    let lastLine := [strL "\nSay \x27paste item N\x27 to copy an entry back to clipboard."]
    (resOk (strL "clipboard") (joinSep (strL "\n") (hdr :: entryLines ++ more ++ lastLine)), st1)

/-- `_search` (no clipboard poll on this path). -/
def clipSearch (query : Str) (st : ClipState) : ExecResult × ClipState :=
  if query.isEmpty then
    (resFail (strL "What should I search for in clipboard history?"), st)
  else
    let found := st.history.enum.filter fun p =>
      containsSub (lowerStr query) (lowerStr p.2.text)
    if found.isEmpty then
      (resOk (strL "clipboard") (strL "No clipboard entries matching \"" ++ query ++ strL "\"."), st)
    else
      let hdr := strL "Found " ++ natDigitsStr found.length ++
        strL " match(es) for \"" ++ query ++ strL "\":\n"
      let entryLines := (found.take 10).map fun p =>
        strL "  " ++ natDigitsStr (p.1 + 1) ++ strL ". " ++ preview60 p.2.text
      (resOk (strL "clipboard") (joinSep (strL "\n") (hdr :: entryLines)), st)

/-- `_clear`. -/
def clipClear (st : ClipState) : ExecResult × ClipState :=
  (resOk (strL "clipboard")
    (strL "Cleared " ++ natDigitsStr st.history.length ++ strL " clipboard entries."),
   { st with history := [] })

/-- Pattern `(?:paste|use|get)\s+(?:item\s+)?(\d+)` at one position: the
optional `item` group is tried greedily first, falling back to the bare
number. -/
def matchPasteNumAt (s : Str) : Option Str :=
  firstAlt [strL "paste", strL "use", strL "get"] s fun s2 =>
    match wsPlus s2 with
    | none => none
    | some s3 =>
      (if isPrefixL (strL "item") s3 then
        match wsPlus (List.drop 4 s3) with
        | some s4 => (digitsPlus s4).map Prod.fst
        | none => none
      else none) <|> (digitsPlus s3).map Prod.fst

/-- The paste-previous phrase list of `ClipboardHistoryTalent.execute`. -/
def clipPastePhrases : List Str :=
  [strL "last copied", strL "previous copy", strL "copy again",
   strL "paste previous", strL "paste last"]

/-- `ClipboardHistoryTalent.execute`. -/
def clipExecute (command : Str) (env : ClipEnv) (st : ClipState) :
    ExecResult × ClipState :=
  if !env.hasPyperclip then
    (resFail (strL "pyperclip is not installed. Run: pip install pyperclip"), st)
  else
    let cmd := pyStrip (lowerStr command)
    if containsSub (strL "clear") cmd && containsSub (strL "clipboard") cmd then
      clipClear st
    else if containsSub (strL "search") cmd && containsSub (strL "clipboard") cmd then
      let q0 := match splitAfterFirst (strL "search clipboard") cmd with
        | some rest => rest
        | none => cmd
      let query := pyStrip (lstripSet (strL "for ") (pyStrip q0))
      clipSearch query st
    else
      match searchPos matchPasteNumAt cmd with
      | some digits => clipPasteItem ((digitsVal digits : Int) - 1) env st
      | none =>
        if matchAny clipPastePhrases cmd then clipPasteItem 1 env st
        else clipShowHistory env st

/-- `_stop_monitor` just lowers the running flag; the worker thread observes
it on its next tick. -/
def clipStopMonitor (st : ClipState) : ClipState := { st with running := false }



/-! ## TodoTalent (claims C3, C6)

The regexes of `TodoTalent.execute` are embedded with Python's backtracking
priorities.  The anchored pattern
`(?:add|put)\s+(.+?)\s+(?:to|on)\s+(?:my\s+)?(?:todo|to-do|to do|task)?\s*list`
needs real backtracking: the leading `\s+` prefers the longest run, the lazy
capture prefers the shortest text, optional groups prefer presence, and `.`
does not match a newline. -/

/-- `\s*list` — the maximal-whitespace run then the literal. -/
def addTailList (l : Str) : Bool :=
  isPrefixL (strL "list") (l.dropWhile isSpaceCh)

/-- `(?:todo|to-do|to do|task)?\s*list`, alternatives in source order and the
empty option last. -/
def addTailUnit (l : Str) : Bool :=
  ([strL "todo", strL "to-do", strL "to do", strL "task"].any fun u =>
    isPrefixL u l && addTailList (List.drop u.length l)) ||
  addTailList l

/-- `(?:my\s+)?` then the unit part, presence preferred. -/
def addTailMy (l : Str) : Bool :=
  (isPrefixL (strL "my") l &&
    (match wsPlus (List.drop 2 l) with
     | some r => addTailUnit r
     | none => false)) ||
  addTailUnit l

/-- `(?:to|on)\s+` then the rest of the tail. -/
def addToOn (l : Str) : Bool :=
  (isPrefixL (strL "to") l &&
    (match wsPlus (List.drop 2 l) with
     | some r => addTailMy r
     | none => false)) ||
  (isPrefixL (strL "on") l &&
    (match wsPlus (List.drop 2 l) with
     | some r => addTailMy r
     | none => false))

/-- `\s+(?:to|on)...` — what must follow the lazy capture. -/
def addAfterCap (l : Str) : Bool :=
  match wsPlus l with
  | some r => addToOn r
  | none => false

/-- Grow the lazy capture one character at a time (`.` refuses newlines),
returning the shortest capture whose remainder matches. -/
def addFindCap (acc : Str) : Str → Option Str
  | [] => none
  | c :: t =>
    if c == '\n' then none
    else if addAfterCap t then some (acc ++ [c])
    else addFindCap (acc ++ [c]) t

/-- Try the leading `\s+` runs from longest to shortest (greedy preference). -/
def addTryWs : Nat → Str → Option Str
  | 0, _ => none
  | k + 1, rest => addFindCap [] (List.drop (k + 1) rest) <|> addTryWs k rest

/-- `re.match` of the add-to-list pattern: the captured task text, if any. -/
def matchAddToList (cmd : Str) : Option Str :=
  (if isPrefixL (strL "add") cmd then
    addTryWs (wsRunLen (List.drop 3 cmd)) (List.drop 3 cmd)
  else none) <|>
  (if isPrefixL (strL "put") cmd then
    addTryWs (wsRunLen (List.drop 3 cmd)) (List.drop 3 cmd)
  else none)

/-- `\s+(\w+)` — the word captured after mandatory whitespace. -/
def wsWord (l : Str) : Option Str :=
  match wsPlus l with
  | some r => (wordPlus r).map Prod.fst
  | none => none

/-- `(?:tag(?:ged)?|category|label)\s+(\w+)` at one position (`_add_task`). -/
def matchTagAddAt (s : Str) : Option Str :=
  (if isPrefixL (strL "tag") s then
    let a3 := List.drop 3 s
    (if isPrefixL (strL "ged") a3 then wsWord (List.drop 3 a3) else none) <|> wsWord a3
  else none) <|>
  (if isPrefixL (strL "category") s then wsWord (List.drop 8 s) else none) <|>
  (if isPrefixL (strL "label") s then wsWord (List.drop 5 s) else none)

/-- `(?:tagged?|category|label)\s+(\w+)` at one position (the list branch:
the first branch is the literal `tagge` with an optional final `d`). -/
def matchTagListAt (s : Str) : Option Str :=
  (if isPrefixL (strL "tagge") s then
    let a5 := List.drop 5 s
    (if isPrefixL (strL "d") a5 then wsWord (List.drop 1 a5) else none) <|> wsWord a5
  else none) <|>
  (if isPrefixL (strL "category") s then wsWord (List.drop 8 s) else none) <|>
  (if isPrefixL (strL "label") s then wsWord (List.drop 5 s) else none)

/-- `re.search` that also reports the match start position. -/
def searchPosIdx {α : Type} (f : Str → Option α) : Str → Option (Nat × α)
  | [] => (f []).map fun a => (0, a)
  | c :: t =>
    match f (c :: t) with
    | some a => some (0, a)
    | none => (searchPosIdx f t).map fun p => (p.1 + 1, p.2)

/-- `\bby\s+(\w+)` with its start position; `prevWord` carries the word-ness
of the previous character for the boundary. -/
def searchByAux (prevWord : Bool) (idx : Nat) : Str → Option (Nat × Str)
  | [] => none
  | c :: t =>
    (if !prevWord && isPrefixL (strL "by") (c :: t) then
      (wsWord (List.drop 2 (c :: t))).map fun w => (idx, w)
    else none) <|>
    searchByAux (isWordCh c) (idx + 1) t

def searchBy (s : Str) : Option (Nat × Str) := searchByAux false 0 s

/-- Python `sorted(prefixes, key=len, reverse=True)` (stable). -/
def insertByLenDesc (x : Str) : List Str → List Str
  | [] => [x]
  | y :: t => if y.length < x.length then x :: y :: t else y :: insertByLenDesc x t

def sortByLenDesc (l : List Str) : List Str :=
  l.foldl (fun acc x => insertByLenDesc x acc) []

/-- `_extract_task_text`: text after the first occurrence of the longest
matching prefix phrase. -/
def extractTaskText (cmd : Str) (prefixes : List Str) : Str :=
  go (sortByLenDesc prefixes)
where
  go : List Str → Str
  | [] => []
  | p :: rest =>
    if containsSub p cmd then pyStrip ((splitAfterFirst p cmd).getD [])
    else go rest

/-- The runtime configuration the todo talent reads. -/
structure TodoConfig where
  default_priority : Option Str
  show_completed : Option Bool
deriving DecidableEq, Repr

/-- The mutable fields of `TodoTalent`: the in-memory list and its file. -/
structure TodoState where
  tasks : List TodoTask
  file : StoreFile

/-- `_find_task` by index: exact substring first, then the largest
distinct-word overlap (first maximum wins, zero overlap is no match). -/
def overlapScore (qwords : List Str) (t : TodoTask) : Nat :=
  (qwords.filter fun w => decide (w ∈ pySplitWs (lowerStr t.text))).length

def bestOverlapIdx (qwords : List Str) : Nat → Option Nat → Nat → List TodoTask → Option Nat
  | _, best, bestScore, [] => if 0 < bestScore then best else none
  | i, best, bestScore, t :: rest =>
    let ov := overlapScore qwords t
    if bestScore < ov then bestOverlapIdx qwords (i + 1) (some i) ov rest
    else bestOverlapIdx qwords (i + 1) best bestScore rest

def findTaskIdx (query : Str) (tasks : List TodoTask) : Option Nat :=
  let ql := lowerStr query
  match tasks.findIdx? (fun t => containsSub ql (lowerStr t.text)) with
  | some i => some i
  | none => bestOverlapIdx ((pySplitWs ql).dedup) 0 none 0 tasks

/-- `priority_order.get(t.get("priority", "medium"), 1)`. -/
def priorityOrderVal (p : Str) : Nat :=
  if p = strL "high" then 0 else if p = strL "medium" then 1
  else if p = strL "low" then 2 else 1

/-- `tasks.sort(key=lambda t: (priority_order…, t.get("created", "")))`
(stable, ascending). -/
def taskKeyLt (a b : TodoTask) : Bool :=
  priorityOrderVal a.priority < priorityOrderVal b.priority ||
  (priorityOrderVal a.priority = priorityOrderVal b.priority && a.created < b.created)

def insertTaskAsc (x : TodoTask) : List TodoTask → List TodoTask
  | [] => [x]
  | y :: t => if taskKeyLt x y then x :: y :: t else y :: insertTaskAsc x t

def sortTasks (l : List TodoTask) : List TodoTask :=
  l.foldl (fun acc x => insertTaskAsc x acc) []

/-- One rendered line of `_list_tasks`. -/
def taskLine (t : TodoTask) : Str :=
  let check := if t.completed then strL "✅" else strL "⬜"
  let pri := if t.priority = strL "high" then strL " ❗"
    else if t.priority = strL "low" then strL " ▽" else []
  let tagS := match t.tag with
    | some g => strL " [" ++ g ++ strL "]"
    | none => []
  let dueS := match t.due with
    | some d => strL " (by " ++ d ++ strL ")"
    | none => []
  check ++ strL " " ++ t.text ++ pri ++ tagS ++ dueS

/-- `_list_tasks`.  `none` models the uncaught `AttributeError` of the tag
filter: `t.get("tag", "")` yields the stored `None` for untagged tasks and
`.lower()` then raises.  When `show_completed` is set and no tag filter
rebinds the list, the in-place sort reorders the store itself. -/
def todoListTasks (tag : Option Str) (cfg : TodoConfig) (st : TodoState) :
    Option (ExecResult × TodoState) :=
  let showCompleted := cfg.show_completed.getD false
  let tasks0 := if showCompleted then st.tasks else st.tasks.filter fun t => !t.completed
  match tag with
  | some g =>
    if tasks0.any fun t => t.tag = none then none
    else
      let tasks1 := tasks0.filter fun t => lowerStr (t.tag.getD []) = lowerStr g
      if tasks1.isEmpty then
        some (resOk (strL "todo_list") (strL "No tasks tagged \x27" ++ g ++ strL "\x27."), st)
      else
        let sorted := sortTasks tasks1
        some (resOk (strL "todo_list")
          (joinSep (strL "\n") (strL "Your tasks:\n" :: sorted.map taskLine)), st)
  | none =>
    if tasks0.isEmpty then
      some (resOk (strL "todo_list") (strL "Your todo list is empty!"), st)
    else
      let sorted := sortTasks tasks0
      let newSt := if showCompleted then { st with tasks := sorted } else st
      some (resOk (strL "todo_list")
        (joinSep (strL "\n") (strL "Your tasks:\n" :: sorted.map taskLine)), newSt)

/-- The priority-phrase extraction of `_add_task`: first of high/medium/low
whose `"<p> priority"` phrase occurs; all its occurrences are removed. -/
def extractPriority (cfg : TodoConfig) (text : Str) : Str × Str :=
  if containsSub (strL "high priority") text then
    (strL "high", pyStrip (removeAll (strL "high priority") text))
  else if containsSub (strL "medium priority") text then
    (strL "medium", pyStrip (removeAll (strL "medium priority") text))
  else if containsSub (strL "low priority") text then
    (strL "low", pyStrip (removeAll (strL "low priority") text))
  else (cfg.default_priority.getD (strL "medium"), text)

/-- `re.sub(r'^(to|that)\s+', '', text)` — drop one leading to/that word. -/
def subLeadingToThat (text : Str) : Str :=
  if isPrefixL (strL "to") text && 0 < wsRunLen (List.drop 2 text) then
    (List.drop 2 text).dropWhile isSpaceCh
  else if isPrefixL (strL "that") text && 0 < wsRunLen (List.drop 4 text) then
    (List.drop 4 text).dropWhile isSpaceCh
  else text

/-- The shared body of `_add_task` (after prefix stripping) and
`_add_task_direct` — the source duplicates this code verbatim. -/
def todoAddCore (text0 : Str) (cfg : TodoConfig) (now : Int) (st : TodoState) :
    ExecResult × TodoState :=
  if text0.isEmpty then (resFail (strL "What task would you like to add?"), st)
  else
    let pr := extractPriority cfg text0
    let priority := pr.1
    let text1 := pr.2
    let tagStep : Option Str × Str :=
      match searchPosIdx matchTagAddAt text1 with
      | some (i, g) => (some g, pyStrip (text1.take i))
      | none => (none, text1)
    let tag := tagStep.1
    let text2 := tagStep.2
    let dueStep : Option Str × Str :=
      match searchBy text2 with
      | some (i, w) => (some w, pyStrip (text2.take i))
      | none => (none, text2)
    let due := dueStep.1
    let text3 := dueStep.2
    let text := pyStrip (subLeadingToThat text3)
    if text.isEmpty then (resFail (strL "I couldn\x27t figure out the task description."), st)
    else
      let task : TodoTask :=
        { id := now, text := text, priority := priority, tag := tag, due := due,
          completed := false, created := now, completed_at := none }
      let newTasks := st.tasks ++ [task]
      let st1 : TodoState := { tasks := newTasks, file := todoSaveFile newTasks }
      let parts := [strL "Added task: \"" ++ text ++ strL "\""] ++
        (if priority ≠ strL "medium" then [strL "Priority: " ++ priority] else []) ++
        (match tag with | some g => [strL "Tag: " ++ g] | none => []) ++
        (match due with | some d => [strL "Due: " ++ d] | none => [])
      (resOkText (strL "todo_add") (joinSep (strL " | ") parts) text, st1)

/-- The prefix list of `_add_task`, in source order. -/
def todoAddPrefixes : List Str :=
  [strL "add task", strL "add a task", strL "new task", strL "create task",
   strL "add to my todo list", strL "add to my list", strL "add to todo",
   strL "add to list", strL "todo", strL "task"]

/-- Strip the first matching prefix (the `for…break` loop of `_add_task`). -/
def stripFirstPrefix : List Str → Str → Str
  | [], text => text
  | p :: rest, text =>
    if isPrefixL p text then pyStrip (List.drop p.length text)
    else stripFirstPrefix rest text

/-- `_add_task`. -/
def todoAddTask (cmd : Str) (cfg : TodoConfig) (now : Int) (st : TodoState) :
    ExecResult × TodoState :=
  todoAddCore (stripFirstPrefix todoAddPrefixes cmd) cfg now st

/-- `_complete_task`: marks the found task and stamps `completed_at`. -/
def todoCompleteTask (query : Str) (now : Int) (st : TodoState) :
    ExecResult × TodoState :=
  if query.isEmpty then (resFail (strL "Which task should I mark as complete?"), st)
  else
    match findTaskIdx query st.tasks with
    | none =>
      (resFail (strL "Couldn\x27t find a task matching \"" ++ query ++ strL "\"."), st)
    | some i =>
      let t := st.tasks.getD i default
      let t2 := { t with completed := true, completed_at := some now }
      let newTasks := st.tasks.set i t2
      (resOkText (strL "todo_complete") (strL "Completed: \"" ++ t.text ++ strL "\" ✅") t.text,
       { tasks := newTasks, file := todoSaveFile newTasks })

/-- `_remove_task`: `list.remove` deletes the first value-equal element. -/
def todoRemoveTask (query : Str) (st : TodoState) : ExecResult × TodoState :=
  if query.isEmpty then (resFail (strL "Which task should I remove?"), st)
  else
    match findTaskIdx query st.tasks with
    | none =>
      (resFail (strL "Couldn\x27t find a task matching \"" ++ query ++ strL "\"."), st)
    | some i =>
      let t := st.tasks.getD i default
      let newTasks := st.tasks.erase t
      (resOkText (strL "todo_remove") (strL "Removed: \"" ++ t.text ++ strL "\"") t.text,
       { tasks := newTasks, file := todoSaveFile newTasks })

/-- The phrase lists of `TodoTalent.execute`, in source order. -/
def todoListPhrases : List Str :=
  [strL "show", strL "list", strL "my task", strL "my todo", strL "my to-do",
   strL "what are my", strL "todo list", strL "to do list"]

def todoCompletePhrases : List Str :=
  [strL "complete", strL "check off", strL "finish", strL "done with",
   strL "mark done", strL "mark complete"]

def todoRemovePrefixes : List Str :=
  [strL "remove task", strL "delete task", strL "remove", strL "delete"]

def todoAddBranchPhrases : List Str :=
  [strL "add task", strL "add a task", strL "new task", strL "create task",
   strL "add to my", strL "add to todo", strL "add to list"]

/-- `TodoTalent.execute`.  `none` is the uncaught fault of the tag-filter
path of `_list_tasks`. -/
def todoExecute (command : Str) (cfg : TodoConfig) (now : Int) (st : TodoState) :
    Option (ExecResult × TodoState) :=
  let cmd := pyStrip (lowerStr command)
  match matchAddToList cmd with
  | some g => some (todoAddCore (pyStrip g) cfg now st)
  | none =>
    if matchAny todoListPhrases cmd then
      todoListTasks (searchPos matchTagListAt cmd) cfg st
    else if matchAny todoCompletePhrases cmd then
      some (todoCompleteTask (extractTaskText cmd todoCompletePhrases) now st)
    else if containsSub (strL "remove task") cmd || containsSub (strL "delete task") cmd then
      some (todoRemoveTask (extractTaskText cmd todoRemovePrefixes) st)
    else if matchAny todoAddBranchPhrases cmd then
      some (todoAddTask cmd cfg now st)
    else if isPrefixL (strL "todo ") cmd || isPrefixL (strL "task ") cmd then
      some (todoAddTask cmd cfg now st)
    else todoListTasks none cfg st



/-! ## CodeSnippetTalent (claims C3, C5) -/

/-- `CodeSnippetTalent._LANGUAGES`. -/
def snipLanguages : List Str :=
  [strL "python", strL "javascript", strL "typescript", strL "java", strL "cpp",
   strL "c", strL "rust", strL "go", strL "ruby", strL "php", strL "swift",
   strL "kotlin", strL "bash", strL "shell", strL "sql", strL "html", strL "css",
   strL "yaml", strL "json", strL "toml"]

/-- The runtime configuration the snippet talent reads. -/
structure SnippetConfig where
  max_display : Option Nat
deriving DecidableEq, Repr

/-- The mutable fields of `CodeSnippetTalent`. -/
structure SnipState where
  snippets : List Snippet
  file : StoreFile

/-- The save-prefix loop of `_save_snippet`: case-insensitive `startswith`,
stripping from the original-case text. -/
def snipStripSavePrefix : List Str → Str → Str
  | [], text => text
  | p :: rest, text =>
    if isPrefixL p (lowerStr text) then pyStrip (List.drop p.length text)
    else snipStripSavePrefix rest text

/-- The language-detection loop of `_save_snippet`. -/
def snipDetectLang : List Str → Str → Str × Str
  | [], text => ([], text)
  | lang :: rest, text =>
    if isPrefixL (lang ++ [':']) (lowerStr text) || isPrefixL (lang ++ [' ']) (lowerStr text) then
      (lang, pyStrip (lstripSet (strL ": ") (List.drop lang.length text)))
    else snipDetectLang rest text

/-- `\s+(\w+)` with the total consumed length. -/
def wsWordLen (l : Str) : Option (Nat × Str) :=
  let k := wsRunLen l
  if k = 0 then none
  else
    let w := wordRun (List.drop k l)
    if w.isEmpty then none else some (k + w.length, w)

/-- `tagged?\s+(\w+)` (case-insensitive) at one position: consumed length and
the captured word; the optional `d` is tried greedily first. -/
def snipTagMatchAt (s : Str) : Option (Nat × Str) :=
  if isPrefixL (strL "tagge") (lowerStr s) then
    let a5 := List.drop 5 s
    ((if isPrefixL (strL "d") (lowerStr a5) then
        (wsWordLen (List.drop 1 a5)).map fun p => (6 + p.1, p.2)
      else none) <|>
     (wsWordLen a5).map fun p => (5 + p.1, p.2))
  else none

/-- `re.search(r'\btagged?\s+(\w+)', text, re.IGNORECASE)` with match start
and end. -/
def searchSnipTagAux (prevWord : Bool) (idx : Nat) : Str → Option (Nat × Nat × Str)
  | [] => none
  | c :: t =>
    (if !prevWord then
      (snipTagMatchAt (c :: t)).map fun p => (idx, idx + p.1, p.2)
    else none) <|>
    searchSnipTagAux (isWordCh c) (idx + 1) t

def searchSnipTag (s : Str) : Option (Nat × Nat × Str) := searchSnipTagAux false 0 s

/-- `_save_snippet`. -/
def snipSave (command : Str) (now : Int) (st : SnipState) : ExecResult × SnipState :=
  let text0 := snipStripSavePrefix
    [strL "save snippet", strL "save code", strL "store snippet",
     strL "add snippet", strL "new snippet"] command
  if text0.isEmpty then (resFail (strL "Please provide the code to save."), st)
  else
    let langStep := snipDetectLang snipLanguages text0
    let language := langStep.1
    let text1 := langStep.2
    let tagStep : Str × Str :=
      match searchSnipTag text1 with
      | some (i, e, g) =>
        (g, pyStrip (pyStrip (text1.take i) ++ strL " " ++ pyStrip (List.drop e text1)))
      | none => ([], text1)
    let tag := tagStep.1
    let text := tagStep.2
    let lines := splitNl text
    let descCode : Str × Str :=
      match lines with
      | [] => (text.take 50, text)
      | [_] => (text.take 50, text)
      | l0 :: rest => (rstripSet [':'] (pyStrip l0), pyStrip (joinSep (strL "\n") rest))
    let description := descCode.1
    let code := descCode.2
    let snip : Snippet :=
      { id := now, code := code, description := description, language := language,
        tag := tag, created := now }
    let newSnips := st.snippets ++ [snip]
    let st1 : SnipState := { snippets := newSnips, file := snippetSaveFile newSnips }
    let parts := [strL "Saved snippet: \"" ++ description ++ strL "\""] ++
      (if language.isEmpty then [] else [strL "Language: " ++ language]) ++
      (if tag.isEmpty then [] else [strL "Tag: " ++ tag])
    (resOk (strL "code_snippet") (joinSep (strL " | ") parts), st1)

/-- Python `int(s)` (sign and digits, surrounding whitespace allowed);
`none` models `ValueError`. -/
def pyParseInt (s : Str) : Option Int :=
  let t := pyStrip s
  match t with
  | '-' :: ds =>
    if !ds.isEmpty && ds.all Char.isDigit then some (-(digitsVal ds : Int)) else none
  | '+' :: ds =>
    if !ds.isEmpty && ds.all Char.isDigit then some (digitsVal ds : Int) else none
  | ds =>
    if !ds.isEmpty && ds.all Char.isDigit then some (digitsVal ds : Int) else none

/-- First index whose description or code contains the query (the text-search
fallback of `_delete_snippet`). -/
def snipFindByText (ql : Str) (snips : List Snippet) : Option Nat :=
  snips.findIdx? fun s =>
    containsSub ql (lowerStr s.description) || containsSub ql (lowerStr s.code)

/-- Remove the element at an index. -/
def popAt {α : Type} (i : Nat) (l : List α) : List α := l.take i ++ l.drop (i + 1)

/-- The text-search fallback of `_delete_snippet`. -/
def snipDeleteByText (query : Str) (st : SnipState) : ExecResult × SnipState :=
  match snipFindByText (lowerStr query) st.snippets with
  | some i =>
    let removed := st.snippets.getD i default
    let newSnips := popAt i st.snippets
    (resOk (strL "code_snippet")
      (strL "Deleted snippet: \"" ++ removed.description ++ strL "\""),
      { snippets := newSnips, file := snippetSaveFile newSnips })
  | none => (resFail (strL "No snippet matching \"" ++ query ++ strL "\"."), st)

/-- `_delete_snippet`: an in-range number deletes by position; a failed
`int()` parse or an out-of-range index falls through to the text search. -/
def snipDelete (query : Str) (st : SnipState) : ExecResult × SnipState :=
  if query.isEmpty then (resFail (strL "Which snippet should I delete?"), st)
  else
    match pyParseInt query with
    | some n =>
      let index := n - 1
      if 0 ≤ index ∧ index < (st.snippets.length : Int) then
        let removed := st.snippets.getD index.toNat default
        let newSnips := popAt index.toNat st.snippets
        (resOk (strL "code_snippet")
          (strL "Deleted snippet: \"" ++ removed.description ++ strL "\""),
          { snippets := newSnips, file := snippetSaveFile newSnips })
      else snipDeleteByText query st
    | none => snipDeleteByText query st

/-- The full rendering of `_show_snippet` for an in-range snippet. -/
def renderShowSnippet (s : Snippet) : Str :=
  joinSep (strL "\n")
    ((if s.description.isEmpty then [] else [strL "Description: " ++ s.description]) ++
     (if s.language.isEmpty then [] else [strL "Language: " ++ s.language]) ++
     (if s.tag.isEmpty then [] else [strL "Tag: " ++ s.tag]) ++
     [strL "\n```" ++ s.language ++ strL "\n" ++ s.code ++ strL "\n```"])

/-- `_show_snippet` (argument already 0-based). -/
def snipShow (index : Int) (st : SnipState) : ExecResult × SnipState :=
  if index < 0 ∨ (st.snippets.length : Int) ≤ index then
    (resFail (strL "No snippet at position " ++ intToStr (index + 1) ++ strL "."), st)
  else (resOk (strL "code_snippet") (renderShowSnippet (st.snippets.getD index.toNat default)), st)

/-- `_search_snippets`. -/
def snipSearch (query : Str) (st : SnipState) : ExecResult × SnipState :=
  if query.isEmpty then (resFail (strL "What should I search for?"), st)
  else
    let ql := lowerStr query
    let found := st.snippets.enum.filter fun p =>
      containsSub ql (lowerStr (joinSep (strL " ")
        [p.2.code, p.2.description, p.2.language, p.2.tag]))
    if found.isEmpty then
      (resOk (strL "code_snippet") (strL "No snippets matching \"" ++ query ++ strL "\"."), st)
    else
      let hdr := strL "Found " ++ natDigitsStr found.length ++
        strL " match(es) for \"" ++ query ++ strL "\":\n"
      let entryLines := (found.take 10).map fun p =>
        strL "  " ++ natDigitsStr (p.1 + 1) ++ strL ". " ++ p.2.description ++
          (if p.2.language.isEmpty then [] else strL " [" ++ p.2.language ++ strL "]")
      (resOk (strL "code_snippet") (joinSep (strL "\n") (hdr :: entryLines)), st)

/-- `_list_snippets`. -/
def snipList (language : Option Str) (cfg : SnippetConfig) (st : SnipState) :
    ExecResult × SnipState :=
  let snips : List Snippet := match language with
    | some l => st.snippets.filter fun s => lowerStr s.language = lowerStr l
    | none => st.snippets
  if snips.isEmpty then
    let label := match language with
      | some l => strL " (" ++ l ++ strL ")"
      | none => []
    (resOk (strL "code_snippet") (strL "No code snippets saved" ++ label ++ strL "."), st)
  else
    let maxDisplay := cfg.max_display.getD 15
    let hdr := strL "Code Snippets (" ++ natDigitsStr snips.length ++ strL "):\n"
    let entryLines := (snips.take maxDisplay).enum.map fun (p : Nat × Snippet) =>
      strL "  " ++ natDigitsStr (p.1 + 1) ++ strL ". " ++ p.2.description ++
        (if p.2.language.isEmpty then [] else strL " [" ++ p.2.language ++ strL "]") ++
        (if p.2.tag.isEmpty then [] else strL " #" ++ p.2.tag)
    let more :=
      if maxDisplay < snips.length then
        [strL "\n  ...and " ++ natDigitsStr (snips.length - maxDisplay) ++ strL " more"]
      else []
    let lastLine := [strL "\nSay \x27show snippet N\x27 to see full code."]
    (resOk (strL "code_snippet") (joinSep (strL "\n") (hdr :: entryLines ++ more ++ lastLine)), st)

/-- Pattern `(?:show|get|paste)\s+snippet\s+(\d+)` at one position. -/
def matchShowNumAt (s : Str) : Option Str :=
  firstAlt [strL "show", strL "get", strL "paste"] s fun s2 =>
    match wsPlus s2 with
    | none => none
    | some s3 =>
      if isPrefixL (strL "snippet") s3 then
        match wsPlus (List.drop 7 s3) with
        | none => none
        | some s4 => (digitsPlus s4).map Prod.fst
      else none

/-- `_strip_prefixes` (`startswith`, longest first). -/
def snipStripPrefixes (cmd : Str) (prefixes : List Str) : Str :=
  go (sortByLenDesc prefixes)
where
  go : List Str → Str
  | [] => cmd
  | p :: rest => if isPrefixL p cmd then pyStrip (List.drop p.length cmd) else go rest

/-- The first `_LANGUAGES` entry occurring in the command (list branch). -/
def snipFirstLangIn (cmd : Str) : Option Str :=
  snipLanguages.find? fun lang => containsSub lang cmd

/-- `CodeSnippetTalent.execute`. -/
def snipExecute (command : Str) (cfg : SnippetConfig) (now : Int) (st : SnipState) :
    ExecResult × SnipState :=
  let cmd := pyStrip (lowerStr command)
  if matchAny [strL "save snippet", strL "save code", strL "store snippet",
      strL "add snippet", strL "new snippet"] cmd then
    snipSave command now st
  else if matchAny [strL "delete snippet", strL "remove snippet"] cmd then
    snipDelete (snipStripPrefixes cmd [strL "delete snippet", strL "remove snippet"]) st
  else
    match searchPos matchShowNumAt cmd with
    | some ds => snipShow ((digitsVal ds : Int) - 1) st
    | none =>
      if matchAny [strL "find snippet", strL "search snippet"] cmd then
        snipSearch (snipStripPrefixes cmd
          [strL "find snippet", strL "search snippet",
           strL "find snippets", strL "search snippets"]) st
      else if matchAny [strL "list snippet", strL "my snippet", strL "show snippet",
          strL "list code"] cmd then
        snipList (snipFirstLangIn cmd) cfg st
      else snipList none cfg st

/-! ## StockTalent (claim C3) -/

/-- The fields of the yfinance `stock.info` dictionary the talent reads.
`none` is an absent key; numeric values are exact rationals. -/
structure StockInfo where
  shortName : Option Str
  currentPrice : Option PyNum
  regularMarketPrice : Option PyNum
  previousClose : Option PyNum
  regularMarketPreviousClose : Option PyNum
  currency : Option Str
  marketCap : Option PyNum
  dayHigh : Option PyNum
  regularMarketDayHigh : Option PyNum
  dayLow : Option PyNum
  regularMarketDayLow : Option PyNum
  volume : Option PyNum
  regularMarketVolume : Option PyNum
  sector : Option Str
  industry : Option Str
  country : Option Str
  fullTimeEmployees : Option Int
  website : Option Str
  trailingPE : Option PyNum
  trailingEps : Option PyNum
  dividendYield : Option PyNum
  fiftyTwoWeekHigh : Option PyNum
  fiftyTwoWeekLow : Option PyNum
  longBusinessSummary : Option Str

/-- Environment oracle: yfinance availability and the per-ticker `.info`
fetch, which may raise (`Except.error` carries the exception text). -/
structure StockEnv where
  hasYf : Bool
  info : Str → Except Str StockInfo

/-- The runtime configuration the stock talent reads. -/
structure StockConfig where
  default_tickers : Option Str

/-- Python truthiness of an optional number. -/
def truthyQ (o : Option PyNum) : Bool :=
  match o with
  | some v => !(pyIsZero v)
  | none => false

/-- Python `a or b` over optional numbers (`None` and `0` are falsy). -/
def orFalsy (a b : Option PyNum) : Option PyNum :=
  match a with
  | some v => if pyIsZero v then b else some v
  | none => b

/-- `re.findall(r'\b([A-Z]{1,5})\b', command)`: all non-overlapping bounded
uppercase runs, left to right. -/
def findTickersAux (prevWord : Bool) : Str → List Str
  | [] => []
  | c :: t =>
    if !prevWord && c.isUpper then
      let k := upperRunLen t
      if k + 1 ≤ 5 && headNonWord (List.drop k t) then
        (c :: t.take k) :: findTickersAux true (List.drop k t)
      else findTickersAux (isWordCh c) t
    else findTickersAux (isWordCh c) t
termination_by s => s.length
decreasing_by
  all_goals simp only [List.length_drop, List.length_cons]
  all_goals omega

/-- The noise words filtered out of ticker candidates. -/
def tickerNoise : List Str :=
  [strL "I", strL "A", strL "AND", strL "OR", strL "THE", strL "FOR", strL "OF",
   strL "IN", strL "IS", strL "IT", strL "TO", strL "MY", strL "HOW", strL "VS",
   strL "NYSE", strL "NASDAQ", strL "SP"]

/-- `_extract_tickers`. -/
def extractTickers (command : Str) : List Str :=
  ((findTickersAux false command).filter fun t => !(tickerNoise.contains t)).take 5

/-- The success rendering of `_stock_price` once a price is available. -/
def stockPriceRender (ticker : Str) (info : StockInfo) (priceV : PyNum) : ExecResult :=
  let name := info.shortName.getD ticker
  let prevClose := orFalsy info.previousClose info.regularMarketPreviousClose
  let currency := info.currency.getD (strL "USD")
  let change :=
    if truthyQ prevClose && truthyQ (some priceV) then
      let prevV := prevClose.getD (pyInt 0)
      let diff := pySub priceV prevV
      let pct := pyMul (pyDiv diff prevV) (pyInt 100)
      let arrow := if pyLe (pyInt 0) diff then strL "⬆️" else strL "⬇️"
      let sign := if pyLe (pyInt 0) diff then strL "+" else []
      strL "  " ++ arrow ++ strL " " ++ sign ++ formatFixed 2 false diff ++
        strL " (" ++ sign ++ formatFixed 2 false pct ++ strL "%)"
    else []
  let capStr :=
    match info.marketCap with
    | some cap =>
      if pyIsZero cap then []
      else if pyLe (pyInt 1000000000000) cap then
        strL "  Market Cap: $" ++ formatFixed 2 false (pyDiv cap (pyInt 1000000000000)) ++ strL "T"
      else if pyLe (pyInt 1000000000) cap then
        strL "  Market Cap: $" ++ formatFixed 2 false (pyDiv cap (pyInt 1000000000)) ++ strL "B"
      else if pyLe (pyInt 1000000) cap then
        strL "  Market Cap: $" ++ formatFixed 2 false (pyDiv cap (pyInt 1000000)) ++ strL "M"
      else []
    | none => []
  let high := info.dayHigh.orElse fun _ => info.regularMarketDayHigh
  let low := info.dayLow.orElse fun _ => info.regularMarketDayLow
  let rangeStr :=
    if truthyQ high && truthyQ low then
      strL "  Day Range: $" ++ formatFixed 2 false (low.getD (pyInt 0)) ++
        strL " - $" ++ formatFixed 2 false (high.getD (pyInt 0))
    else []
  let volume := info.volume.orElse fun _ => info.regularMarketVolume
  let lines :=
    [name ++ strL " (" ++ ticker ++ strL ")",
     strL "  Price: $" ++ formatFixed 2 false priceV ++ strL " " ++ currency ++ change] ++
    (if rangeStr.isEmpty then [] else [rangeStr]) ++
    (if capStr.isEmpty then [] else [capStr]) ++
    (if truthyQ volume then [strL "  Volume: " ++ formatFixed 0 true (volume.getD (pyInt 0))] else [])
  resOk (strL "stock") (joinSep (strL "\n") lines)

/-- `_stock_price`. -/
def stockPrice (ticker : Str) (env : StockEnv) : ExecResult :=
  match env.info ticker with
  | Except.error e => resFail (strL "Error fetching " ++ ticker ++ strL ": " ++ e)
  | Except.ok info =>
    match orFalsy info.currentPrice info.regularMarketPrice with
    | none => resFail (strL "Could not fetch price for " ++ ticker ++
        strL ". Is the ticker correct?")
    | some priceV => stockPriceRender ticker info priceV

/-- `_stock_info`, with the field loop unrolled in source order. -/
def stockInfoCmd (ticker : Str) (env : StockEnv) : ExecResult :=
  match env.info ticker with
  | Except.error e => resFail (strL "Error fetching info for " ++ ticker ++ strL ": " ++ e)
  | Except.ok info =>
    let name := info.shortName.getD ticker
    let fieldLines :=
      (match info.sector with
        | some v => [strL "  Sector: " ++ v]
        | none => []) ++
      (match info.industry with
        | some v => [strL "  Industry: " ++ v]
        | none => []) ++
      (match info.country with
        | some v => [strL "  Country: " ++ v]
        | none => []) ++
      (match info.fullTimeEmployees with
        | some v => [strL "  Employees: " ++ intGrouped v]
        | none => []) ++
      (match info.website with
        | some v => [strL "  Website: " ++ v]
        | none => []) ++
      (match info.trailingPE with
        | some v => [strL "  P/E Ratio: " ++ formatFixed 2 false v]
        | none => []) ++
      (match info.trailingEps with
        | some v => [strL "  EPS: " ++ formatFixed 2 false v]
        | none => []) ++
      (match info.dividendYield with
        | some v =>
          if !(pyIsZero v) then
            [strL "  Dividend Yield: " ++ formatFixed 2 false (pyMul v (pyInt 100)) ++ strL "%"]
          else [strL "  Dividend Yield: " ++ formatFixed 2 false v]
        | none => []) ++
      (match info.fiftyTwoWeekHigh with
        | some v => [strL "  52-Week High: $" ++ formatFixed 2 false v]
        | none => []) ++
      (match info.fiftyTwoWeekLow with
        | some v => [strL "  52-Week Low: $" ++ formatFixed 2 false v]
        | none => [])
    let summary := info.longBusinessSummary.getD []
    let lines := (name ++ strL " (" ++ ticker ++ strL ")\n") :: fieldLines ++
      (if summary.isEmpty then [] else [strL "\n" ++ summary.take 200 ++ strL "..."])
    resOk (strL "stock") (joinSep (strL "\n") lines)

/-- One row of `_compare_stocks`. -/
def compareRow (ticker : Str) (env : StockEnv) : Str :=
  match env.info ticker with
  | Except.error _ =>
    strL "  " ++ padRightW 8 ticker ++ strL " " ++ padLeftW 10 (strL "Error")
  | Except.ok info =>
    let price : PyNum :=
      match info.currentPrice with
      | some v => if pyIsZero v then info.regularMarketPrice.getD (pyInt 0) else v
      | none => info.regularMarketPrice.getD (pyInt 0)
    let prev : PyNum :=
      match info.previousClose with
      | some v => if pyIsZero v then info.regularMarketPreviousClose.getD (pyInt 0) else v
      | none => info.regularMarketPreviousClose.getD (pyInt 0)
    let cap := info.marketCap.getD (pyInt 0)
    let changeStr :=
      if !(pyIsZero price) && !(pyIsZero prev) then
        formatFixedPlus 2 (pyMul (pyDiv (pySub price prev) prev) (pyInt 100)) ++ strL "%"
      else strL "N/A"
    let capStr :=
      if pyLe (pyInt 1000000000000) cap then
        strL "$" ++ formatFixed 1 false (pyDiv cap (pyInt 1000000000000)) ++ strL "T"
      else if pyLe (pyInt 1000000000) cap then
        strL "$" ++ formatFixed 1 false (pyDiv cap (pyInt 1000000000)) ++ strL "B"
      else if pyLe (pyInt 1000000) cap then
        strL "$" ++ formatFixed 1 false (pyDiv cap (pyInt 1000000)) ++ strL "M"
      else strL "N/A"
    let priceStr := if !(pyIsZero price) then strL "$" ++ formatFixed 2 false price else strL "N/A"
    strL "  " ++ padRightW 8 ticker ++ strL " " ++ padLeftW 10 priceStr ++ strL " " ++
      padLeftW 10 changeStr ++ strL " " ++ padLeftW 12 capStr

/-- `_compare_stocks`. -/
def compareStocks (tickers : List Str) (env : StockEnv) : ExecResult :=
  let hdr := [strL "Stock Comparison:\n",
    strL "  " ++ padRightW 8 (strL "Ticker") ++ strL " " ++ padLeftW 10 (strL "Price") ++
      strL " " ++ padLeftW 10 (strL "Change") ++ strL " " ++ padLeftW 12 (strL "Mkt Cap"),
    strL "  " ++ List.replicate 44 '-']
  let rows := (tickers.take 5).map fun t => compareRow t env
  resOk (strL "stock") (joinSep (strL "\n") (hdr ++ rows))

/-- `StockTalent.execute`. -/
def stockExecute (command : Str) (cfg : StockConfig) (env : StockEnv) : ExecResult :=
  if !env.hasYf then resFail (strL "yfinance is not installed. Run: pip install yfinance")
  else
    let cmd := pyStrip (lowerStr command)
    let tickers0 := extractTickers command
    let tickers :=
      if tickers0.isEmpty then
        let watchlist := cfg.default_tickers.getD []
        if !watchlist.isEmpty then
          ((splitOnCh ',' watchlist).filter fun t => !(pyStrip t).isEmpty).map
            fun t => upperStr (pyStrip t)
        else []
      else tickers0
    if tickers.isEmpty then
      resFail (strL "Which stock? Include a ticker symbol like AAPL, TSLA, MSFT.")
    else if 1 < tickers.length then compareStocks tickers env
    else
      let ticker := tickers.getD 0 []
      if matchAny [strL "info", strL "detail", strL "about", strL "tell me about"] cmd then
        stockInfoCmd ticker env
      else stockPrice ticker env


/-! ## Theorems -/

theorem resFail_contract (msg : Str) : ResultContract (resFail msg) := by
  intro _; rfl

theorem resOk_contract (act msg : Str) : ResultContract (resOk act msg) := by
  intro h; cases h

theorem resOkText_contract (act msg text : Str) : ResultContract (resOkText act msg text) := by
  intro h; cases h

theorem matchAny_of_mem {pats : List Str} {s p : Str}
    (hp : p ∈ pats) (h : containsSub p s = true) : matchAny pats s = true := by
  unfold matchAny
  exact List.any_eq_true.mpr ⟨p, hp, h⟩

theorem baseCanHandle_excl (excl kws : List Str) (cmd ex : Str)
    (h1 : ex ∈ excl) (h2 : containsSub ex (lowerStr cmd) = true) :
    baseCanHandle excl kws cmd = false := by
  unfold baseCanHandle
  simp [matchAny_of_mem h1 h2]

theorem stock_can_handle_excl (cmd ex : Str)
    (h1 : ex ∈ stockExclusions) (h2 : containsSub ex (lowerStr cmd) = true) :
    stock_can_handle cmd = false := by
  unfold stock_can_handle
  simp [matchAny_of_mem h1 h2]

/-- C1: for every talent and every command string, if any string in that
talent's exclusion set occurs as a substring of the lower-cased command, then
`can_handle` returns false, regardless of keyword occurrences. -/
theorem claim1_exclusion_veto :
    ∀ t ∈ allTalents, ∀ command ex : Str, ex ∈ t.exclusions →
      containsSub ex (lowerStr command) = true → t.canHandle command = false := by
  intro t ht command ex h1 h2
  fin_cases ht <;>
    first
      | exact baseCanHandle_excl _ _ _ _ h1 h2
      | exact stock_can_handle_excl _ _ h1 h2

/-- Witness for C1 at a concrete input: "remind" is an exclusion of the todo
talent and occurs in the command, so `can_handle` rejects it. -/
theorem claim1_witness :
    todoM.canHandle (strL "remind me of my todo list") = false :=
  claim1_exclusion_veto todoM (by simp [allTalents]) (strL "remind me of my todo list")
    (strL "remind") (by decide) (by decide)

/-- Counterexample to C2: `StockTalent.can_handle("check AAPL")` returns true
although no keyword of the stock talent occurs in the lower-cased command
(and no exclusion occurs either) — the extra ticker-pattern branch fires. -/
theorem claim2_counterexample :
    stockM.canHandle (strL "check AAPL") = true ∧
    matchAny stockKeywords (lowerStr (strL "check AAPL")) = false ∧
    matchAny stockExclusions (lowerStr (strL "check AAPL")) = false := by
  decide

/-- C2 as amended: for the eleven talents other than the stock talent, in the
absence of exclusion terms `can_handle` is true iff some keyword occurs; the
stock talent additionally accepts commands containing a bare 1-to-5-letter
uppercase ticker word together with "price", "how is" or "check". -/
theorem claim2_amended :
    (∀ t ∈ [cryptoM, dockerM, fileOrgM, githubM, jsonFmtM, regexTM,
        clipboardM, snippetM, pomodoroM, todoM, ucM], ∀ command : Str,
      matchAny t.exclusions (lowerStr command) = false →
      (t.canHandle command = true ↔ matchAny t.keywords (lowerStr command) = true)) ∧
    (∀ command : Str,
      matchAny stockExclusions (lowerStr command) = false →
      (stockM.canHandle command = true ↔
        (matchAny stockKeywords (lowerStr command) = true ∨
          (hasTickerWord command = true ∧
            (containsSub (strL "price") (lowerStr command) = true ∨
             containsSub (strL "how is") (lowerStr command) = true ∨
             containsSub (strL "check") (lowerStr command) = true))))) := by
  constructor
  · intro t ht command hexcl
    fin_cases ht <;>
      simp_all [cryptoM, dockerM, fileOrgM, githubM, jsonFmtM, regexTM,
        clipboardM, snippetM, pomodoroM, todoM, ucM, baseCanHandle]
  · intro command hexcl
    simp only [stockM, stock_can_handle]
    simp [hexcl]
    tauto

/-- Witness for the amended C2 at concrete inputs: a keyword command for the
todo talent and a ticker command for the stock talent. -/
theorem claim2_witness :
    todoM.canHandle (strL "show my todo list") = true ∧
    stockM.canHandle (strL "how is TSLA doing") = true := by
  constructor
  · exact (claim2_amended.1 todoM (by simp) (strL "show my todo list") (by decide)).mpr
      (by decide)
  · exact (claim2_amended.2 (strL "how is TSLA doing") (by decide)).mpr
      (Or.inr (by decide))

theorem decodeTask_encodeTask (t : TodoTask) : decodeTask (encodeTask t) = some t := by
  obtain ⟨id, text, priority, tag, due, completed, created, compAt⟩ := t
  cases tag <;> cases due <;> cases compAt <;> rfl

theorem decodeSnippet_encodeSnippet (s : Snippet) :
    decodeSnippet (encodeSnippet s) = some s := by
  obtain ⟨id, code, description, language, tag, created⟩ := s
  rfl

theorem decodeTaskList_map (l : List TodoTask) :
    decodeTaskList (l.map encodeTask) = some l := by
  induction l with
  | nil => rfl
  | cons x xs ih => simp [decodeTaskList, decodeTask_encodeTask, ih]

theorem decodeSnippetList_map (l : List Snippet) :
    decodeSnippetList (l.map encodeSnippet) = some l := by
  induction l with
  | nil => rfl
  | cons x xs ih => simp [decodeSnippetList, decodeSnippet_encodeSnippet, ih]

/-- C4: for both JSON-backed stores (todo, snippets), appending a record,
saving, and loading the file into a fresh instance yields a collection equal
to the saved one with order preserved (successful write assumed: the model's
save is the successful write). -/
theorem claim4_store_roundtrip :
    (∀ (tasks : List TodoTask) (r : TodoTask),
      todoLoadFile (todoSaveFile (tasks ++ [r])) = tasks ++ [r]) ∧
    (∀ (snips : List Snippet) (s : Snippet),
      snippetLoadFile (snippetSaveFile (snips ++ [s])) = snips ++ [s]) := by
  constructor
  · intro tasks r
    show (decodeTaskList ((tasks ++ [r]).map encodeTask)).getD [] = tasks ++ [r]
    rw [decodeTaskList_map]
    rfl
  · intro snips s
    show (decodeSnippetList ((snips ++ [s]).map encodeSnippet)).getD [] = snips ++ [s]
    rw [decodeSnippetList_map]
    rfl

theorem pred_of_some_pair {σ : Type} {P : ExecResult → Prop} {p : ExecResult × σ}
    {r : ExecResult} {st2 : σ}
    (h : (some p : Option (ExecResult × σ)) = some (r, st2)) (hs : P p.1) : P r := by
  have h2 : p = (r, st2) := Option.some.inj h
  have h3 : p.1 = r := by rw [h2]
  exact h3 ▸ hs

/-- C5: "show snippet 3" translates the 1-based index to internal index 2: on
a 5-item store it succeeds with the snippet stored at index 2, and on a 2-item
store it returns success=false with the not-found message instead of raising. -/
theorem claim5_show_snippet_indexing :
    (∀ (s0 s1 s2 s3 s4 : Snippet) (cfg : SnippetConfig) (now : Int) (f : StoreFile),
      snipExecute (strL "show snippet 3") cfg now ⟨[s0, s1, s2, s3, s4], f⟩ =
        (resOk (strL "code_snippet") (renderShowSnippet s2), ⟨[s0, s1, s2, s3, s4], f⟩)) ∧
    (∀ (s0 s1 : Snippet) (cfg : SnippetConfig) (now : Int) (f : StoreFile),
      snipExecute (strL "show snippet 3") cfg now ⟨[s0, s1], f⟩ =
        (resFail (strL "No snippet at position 3."), ⟨[s0, s1], f⟩)) := by
  constructor
  · intro s0 s1 s2 s3 s4 cfg now f
    rfl
  · intro s0 s1 cfg now f
    rfl

/-- C6: from an empty store with default configuration, "add task buy milk"
succeeds and stores one medium-priority task "buy milk"; "complete buy milk"
succeeds and sets its completed flag; "show my todo list" with
show_completed=false succeeds with a response that does not mention
"buy milk". -/
theorem claim6_todo_scenario (now1 now2 now3 : Int) :
    todoExecute (strL "add task buy milk") ⟨none, none⟩ now1 ⟨[], StoreFile.missing⟩ =
      some (resOkText (strL "todo_add") (strL "Added task: \"buy milk\"") (strL "buy milk"),
        ⟨[⟨now1, strL "buy milk", strL "medium", none, none, false, now1, none⟩],
         todoSaveFile [⟨now1, strL "buy milk", strL "medium", none, none, false, now1, none⟩]⟩) ∧
    todoExecute (strL "complete buy milk") ⟨none, none⟩ now2
        ⟨[⟨now1, strL "buy milk", strL "medium", none, none, false, now1, none⟩],
         todoSaveFile [⟨now1, strL "buy milk", strL "medium", none, none, false, now1, none⟩]⟩ =
      some (resOkText (strL "todo_complete") (strL "Completed: \"buy milk\" ✅") (strL "buy milk"),
        ⟨[⟨now1, strL "buy milk", strL "medium", none, none, true, now1, some now2⟩],
         todoSaveFile [⟨now1, strL "buy milk", strL "medium", none, none, true, now1, some now2⟩]⟩) ∧
    todoExecute (strL "show my todo list") ⟨none, some false⟩ now3
        ⟨[⟨now1, strL "buy milk", strL "medium", none, none, true, now1, some now2⟩],
         todoSaveFile [⟨now1, strL "buy milk", strL "medium", none, none, true, now1, some now2⟩]⟩ =
      some (resOk (strL "todo_list") (strL "Your todo list is empty!"),
        ⟨[⟨now1, strL "buy milk", strL "medium", none, none, true, now1, some now2⟩],
         todoSaveFile [⟨now1, strL "buy milk", strL "medium", none, none, true, now1, some now2⟩]⟩) ∧
    containsSub (strL "buy milk") (strL "Your todo list is empty!") = false :=
  ⟨rfl, rfl, rfl, by decide⟩

/-- C7: the monitor/timer stop operations are idempotent: a second stop raises
no fault (both are total functions) and leaves the monitor/timer state equal
to the state after one stop. -/
theorem claim7_stop_idempotent :
    (∀ st : PomodoroState, (pomStop (pomStop st).2).2 = (pomStop st).2) ∧
    (∀ st : ClipState, clipStopMonitor (clipStopMonitor st) = clipStopMonitor st) := by
  constructor
  · intro st
    by_cases h : st.state = PomState.idle
    · simp [pomStop, h]
    · simp only [pomStop, h, if_false, if_neg]
      by_cases hw : st.state = PomState.working <;> simp [hw, pomStop, pomCancelTimer]
  · intro st
    rfl

/-- C8: "convert 100 miles to kilometers" succeeds and its response contains
the value 160.9344 (100 × 1609.344 m per mile ÷ 1000 m per km), for every
state of the currency API oracle (which the length path never consults). -/
theorem claim8_unit_conversion (api : CurrencyApi) :
    ucExecute (strL "convert 100 miles to kilometers") api =
      some (resOk (strL "unit_converter") (strL "100 miles = 160.9344 kilometers")) ∧
    (resOk (strL "unit_converter") (strL "100 miles = 160.9344 kilometers")).success = true ∧
    containsSub (strL "160.9344")
      (resOk (strL "unit_converter") (strL "100 miles = 160.9344 kilometers")).response = true :=
  ⟨by rfl, rfl, by decide⟩

/-- Every pomodoro result is `resOk "pomodoro"` with some message. -/
def PomOkShape (r : ExecResult) : Prop :=
  ∃ m, r = resOk (strL "pomodoro") m

theorem pomOkShape_fields {r : ExecResult} (h : PomOkShape r) :
    r.success = true ∧ r.actions_taken = [⟨strL "pomodoro", none⟩] := by
  obtain ⟨m, rfl⟩ := h
  exact ⟨rfl, rfl⟩

theorem pomStop_shape (st : PomodoroState) : PomOkShape (pomStop st).1 := by
  unfold pomStop
  by_cases h : st.state = PomState.idle
  · simp only [h, if_true, ite_true]
    exact ⟨_, rfl⟩
  · by_cases hw : st.state = PomState.working <;>
      simp only [h, hw, if_true, if_false, ite_true, ite_false] <;>
      exact ⟨_, rfl⟩

theorem pomStatus_shape (now : PyNum) (st : PomodoroState) :
    PomOkShape (pomStatus now st) := by
  unfold pomStatus
  split_ifs <;> exact ⟨_, rfl⟩

theorem pomStartWork_shape (cfg : PomodoroConfig) (now : PyNum) (st : PomodoroState) :
    PomOkShape (pomStartWork cfg now st).1 := by
  unfold pomStartWork
  split_ifs <;> exact ⟨_, rfl⟩

theorem pomStartBreak_shape (cfg : PomodoroConfig) (now : PyNum) (st : PomodoroState)
    (r : ExecResult) (st2 : PomodoroState) (h : pomStartBreak cfg now st = some (r, st2)) :
    PomOkShape r := by
  unfold pomStartBreak at h
  dsimp only [] at h
  split_ifs at h <;>
    first
      | exact Option.noConfusion h
      | (cases h; exact ⟨_, rfl⟩)

theorem pomExecute_shape
    (command : Str) (ctxNotify : Bool) (cfg : PomodoroConfig) (now : PyNum)
    (st : PomodoroState) (r : ExecResult) (st2 : PomodoroState)
    (h : pomExecute command ctxNotify cfg now st = some (r, st2)) : PomOkShape r := by
  unfold pomExecute at h
  dsimp only [] at h
  split_ifs at h
  · exact pred_of_some_pair h (pomStop_shape _)
  · exact pred_of_some_pair h (pomStatus_shape _ _)
  · exact pomStartBreak_shape _ _ _ _ _ h
  · exact pred_of_some_pair h (pomStartWork_shape _ _ _)
  · exact pred_of_some_pair h (pomStatus_shape _ _)

/-- C9: `PomodoroTalent.execute` never reports failure: whenever it returns a
result (its only fault is a division by zero under a degenerate
`sessions_before_long_break = 0` configuration), that result has
`success = true` and `actions_taken = [{"action": "pomodoro"}]`. -/
theorem claim9_pomodoro_never_fails
    (command : Str) (ctxNotify : Bool) (cfg : PomodoroConfig) (now : PyNum)
    (st : PomodoroState) (r : ExecResult) (st2 : PomodoroState)
    (h : pomExecute command ctxNotify cfg now st = some (r, st2)) :
    r.success = true ∧ r.actions_taken = [⟨strL "pomodoro", none⟩] :=
  pomOkShape_fields (pomExecute_shape command ctxNotify cfg now st r st2 h)

/-- Witness for C9 at a concrete input: starting a pomodoro from the idle
state succeeds with the single pomodoro action. -/
theorem claim9_witness :
    (resOk (strL "pomodoro") (strL "Pomodoro #1 started! Focus for 25 minutes.")).success = true ∧
    (resOk (strL "pomodoro")
      (strL "Pomodoro #1 started! Focus for 25 minutes.")).actions_taken =
      [⟨strL "pomodoro", none⟩] :=
  claim9_pomodoro_never_fails (strL "start pomodoro") true ⟨none, none, none, none⟩
    (pyInt 0)
    ⟨none, PomState.idle, 0, pyInt 0, 0, false⟩
    (resOk (strL "pomodoro") (strL "Pomodoro #1 started! Focus for 25 minutes."))
    ⟨some (), PomState.working, 1, pyInt 0, 1500, true⟩
    (by rfl)

theorem pomOkShape_contract {r : ExecResult} (h : PomOkShape r) : ResultContract r := by
  obtain ⟨m, rfl⟩ := h
  exact resOk_contract _ _

theorem todoListTasks_contract (tag : Option Str) (cfg : TodoConfig) (st : TodoState)
    (r : ExecResult) (st2 : TodoState) (h : todoListTasks tag cfg st = some (r, st2)) :
    ResultContract r := by
  unfold todoListTasks at h
  cases tag <;> dsimp only [] at h <;> split_ifs at h <;>
    first
      | exact Option.noConfusion h
      | exact pred_of_some_pair h (resOk_contract _ _)

theorem todoAddCore_contract (text0 : Str) (cfg : TodoConfig) (now : Int) (st : TodoState) :
    ResultContract (todoAddCore text0 cfg now st).1 := by
  unfold todoAddCore
  try dsimp only []
  repeat' split
  all_goals first
    | exact resFail_contract _
    | exact resOkText_contract _ _ _

theorem todoAddTask_contract (cmd : Str) (cfg : TodoConfig) (now : Int) (st : TodoState) :
    ResultContract (todoAddTask cmd cfg now st).1 :=
  todoAddCore_contract _ _ _ _

theorem todoCompleteTask_contract (query : Str) (now : Int) (st : TodoState) :
    ResultContract (todoCompleteTask query now st).1 := by
  unfold todoCompleteTask
  try dsimp only []
  repeat' split
  all_goals first
    | exact resFail_contract _
    | exact resOkText_contract _ _ _

theorem todoRemoveTask_contract (query : Str) (st : TodoState) :
    ResultContract (todoRemoveTask query st).1 := by
  unfold todoRemoveTask
  try dsimp only []
  repeat' split
  all_goals first
    | exact resFail_contract _
    | exact resOkText_contract _ _ _

set_option maxHeartbeats 1000000 in
theorem todoExecute_contract (cmd : Str) (cfg : TodoConfig) (now : Int) (st : TodoState)
    (r : ExecResult) (st2 : TodoState) (h : todoExecute cmd cfg now st = some (r, st2)) :
    ResultContract r := by
  unfold todoExecute at h
  dsimp only [] at h
  split at h
  · exact pred_of_some_pair h (todoAddCore_contract _ _ _ _)
  · split_ifs at h
    · exact todoListTasks_contract _ _ _ _ _ h
    · exact pred_of_some_pair h (todoCompleteTask_contract _ _ _)
    · exact pred_of_some_pair h (todoRemoveTask_contract _ _)
    · exact pred_of_some_pair h (todoAddTask_contract _ _ _ _)
    · exact pred_of_some_pair h (todoAddTask_contract _ _ _ _)
    · exact todoListTasks_contract _ _ _ _ _ h

theorem convertUnitUC_contract (value : PyNum) (fromUnit toUnit : Str) :
    ResultContract (convertUnitUC value fromUnit toUnit) := by
  unfold convertUnitUC
  try dsimp only []
  repeat' split
  all_goals first
    | exact resFail_contract _
    | exact resOk_contract _ _

theorem convertCurrencyUC_contract (value : PyNum) (fromCode toCode : Str)
    (api : CurrencyApi) : ResultContract (convertCurrencyUC value fromCode toCode api) := by
  unfold convertCurrencyUC
  try dsimp only []
  repeat' split
  all_goals first
    | exact resFail_contract _
    | exact resOk_contract _ _

theorem ucDispatch_contract (value : PyNum) (fromU toU : Str) (api : CurrencyApi) :
    ResultContract (ucDispatch value fromU toU api) := by
  unfold ucDispatch
  dsimp only []
  split_ifs
  · exact convertCurrencyUC_contract _ _ _ _
  · exact convertUnitUC_contract _ _ _

theorem ucExecute_contract (cmd : Str) (api : CurrencyApi) (r : ExecResult)
    (h : ucExecute cmd api = some r) : ResultContract r := by
  unfold ucExecute at h
  dsimp only [] at h
  split at h
  · cases Option.some.inj h
    exact resFail_contract _
  · split at h
    · exact Option.noConfusion h
    · cases Option.some.inj h
      exact ucDispatch_contract _ _ _ _
  · cases Option.some.inj h
    exact ucDispatch_contract _ _ _ _

theorem clipPasteItem_contract (index : Int) (env : ClipEnv) (st : ClipState) :
    ResultContract (clipPasteItem index env st).1 := by
  unfold clipPasteItem
  try dsimp only []
  repeat' split
  all_goals first
    | exact resFail_contract _
    | exact resOk_contract _ _

theorem clipShowHistory_contract (env : ClipEnv) (st : ClipState) :
    ResultContract (clipShowHistory env st).1 := by
  unfold clipShowHistory
  try dsimp only []
  repeat' split
  all_goals exact resOk_contract _ _

theorem clipSearch_contract (query : Str) (st : ClipState) :
    ResultContract (clipSearch query st).1 := by
  unfold clipSearch
  try dsimp only []
  repeat' split
  all_goals first
    | exact resFail_contract _
    | exact resOk_contract _ _

set_option maxHeartbeats 2000000 in
theorem clipExecute_contract (cmd : Str) (env : ClipEnv) (st : ClipState) :
    ResultContract (clipExecute cmd env st).1 := by
  unfold clipExecute
  try dsimp only []
  repeat' split
  all_goals first
    | exact resFail_contract _
    | exact resOk_contract _ _
    | exact clipSearch_contract _ _
    | exact clipPasteItem_contract _ _ _
    | exact clipShowHistory_contract _ _

theorem snipSave_contract (command : Str) (now : Int) (st : SnipState) :
    ResultContract (snipSave command now st).1 := by
  unfold snipSave
  try dsimp only []
  repeat' split
  all_goals first
    | exact resFail_contract _
    | exact resOk_contract _ _

theorem snipDeleteByText_ok_or_fail (query : Str) (st : SnipState) :
    ResultContract (snipDeleteByText query st).1 := by
  unfold snipDeleteByText
  split
  · exact resOk_contract _ _
  · exact resFail_contract _

theorem snipDelete_contract (query : Str) (st : SnipState) :
    ResultContract (snipDelete query st).1 := by
  unfold snipDelete
  split_ifs
  · exact resFail_contract _
  · split
    · dsimp only []
      split_ifs
      · exact resOk_contract _ _
      · exact snipDeleteByText_ok_or_fail _ _
    · exact snipDeleteByText_ok_or_fail _ _

theorem snipShow_contract (index : Int) (st : SnipState) :
    ResultContract (snipShow index st).1 := by
  unfold snipShow
  try dsimp only []
  repeat' split
  all_goals first
    | exact resFail_contract _
    | exact resOk_contract _ _

theorem snipSearch_contract (query : Str) (st : SnipState) :
    ResultContract (snipSearch query st).1 := by
  unfold snipSearch
  try dsimp only []
  repeat' split
  all_goals first
    | exact resFail_contract _
    | exact resOk_contract _ _

theorem snipList_contract (language : Option Str) (cfg : SnippetConfig) (st : SnipState) :
    ResultContract (snipList language cfg st).1 := by
  unfold snipList
  try dsimp only []
  repeat' split
  all_goals exact resOk_contract _ _

set_option maxHeartbeats 2000000 in
theorem snipExecute_contract (cmd : Str) (cfg : SnippetConfig) (now : Int) (st : SnipState) :
    ResultContract (snipExecute cmd cfg now st).1 := by
  unfold snipExecute
  try dsimp only []
  repeat' split
  all_goals first
    | exact snipSave_contract _ _ _
    | exact snipDelete_contract _ _
    | exact snipShow_contract _ _
    | exact snipSearch_contract _ _
    | exact snipList_contract _ _ _

theorem stockPrice_contract (ticker : Str) (env : StockEnv) :
    ResultContract (stockPrice ticker env) := by
  unfold stockPrice
  split
  · exact resFail_contract _
  · split
    · exact resFail_contract _
    · exact resOk_contract _ _

theorem stockInfoCmd_contract (ticker : Str) (env : StockEnv) :
    ResultContract (stockInfoCmd ticker env) := by
  unfold stockInfoCmd
  split
  · exact resFail_contract _
  · exact resOk_contract _ _

theorem compareStocks_contract (tickers : List Str) (env : StockEnv) :
    ResultContract (compareStocks tickers env) :=
  resOk_contract _ _

set_option maxHeartbeats 2000000 in
theorem stockExecute_contract (cmd : Str) (cfg : StockConfig) (env : StockEnv) :
    ResultContract (stockExecute cmd cfg env) := by
  unfold stockExecute
  dsimp only []
  split_ifs <;>
    first
      | exact resFail_contract _
      | exact compareStocks_contract _ _
      | exact stockInfoCmd_contract _ _
      | exact stockPrice_contract _ _

/-- C3: for every embedded talent, every command, and every context/oracle
state, a returned `ExecutionResult` with `success = false` has an empty
`actions_taken` list.  (The six remaining talents build every failure through
the verbatim-identical `_fail` helper.) -/
theorem claim3_failed_results_have_no_actions :
    (∀ (cmd : Str) (cfg : TodoConfig) (now : Int) (st : TodoState) (r : ExecResult)
        (st2 : TodoState), todoExecute cmd cfg now st = some (r, st2) → ResultContract r) ∧
    (∀ (cmd : Str) (cfg : StockConfig) (env : StockEnv),
      ResultContract (stockExecute cmd cfg env)) ∧
    (∀ (cmd : Str) (api : CurrencyApi) (r : ExecResult),
      ucExecute cmd api = some r → ResultContract r) ∧
    (∀ (cmd : Str) (env : ClipEnv) (st : ClipState),
      ResultContract (clipExecute cmd env st).1) ∧
    (∀ (cmd : Str) (cfg : SnippetConfig) (now : Int) (st : SnipState),
      ResultContract (snipExecute cmd cfg now st).1) ∧
    (∀ (cmd : Str) (ctxNotify : Bool) (cfg : PomodoroConfig) (now : PyNum)
        (st : PomodoroState) (r : ExecResult) (st2 : PomodoroState),
      pomExecute cmd ctxNotify cfg now st = some (r, st2) → ResultContract r) := by
  refine ⟨?_, ?_, ?_, ?_, ?_, ?_⟩
  · intro cmd cfg now st r st2 h
    exact todoExecute_contract cmd cfg now st r st2 h
  · intro cmd cfg env
    exact stockExecute_contract cmd cfg env
  · intro cmd api r h
    exact ucExecute_contract cmd api r h
  · intro cmd env st
    exact clipExecute_contract cmd env st
  · intro cmd cfg now st
    exact snipExecute_contract cmd cfg now st
  · intro cmd ctxNotify cfg now st r st2 h
    exact pomOkShape_contract (pomExecute_shape cmd ctxNotify cfg now st r st2 h)

/-- Witness for C3 at a concrete failing input: "add task" with no
description fails, and the failed result indeed carries no actions. -/
theorem claim3_witness :
    resFail (strL "What task would you like to add?") =
      resFail (strL "What task would you like to add?") ∧
    (resFail (strL "What task would you like to add?")).actions_taken = [] := by
  constructor
  · rfl
  · exact claim3_failed_results_have_no_actions.1 (strL "add task") ⟨none, none⟩ 0
      ⟨[], StoreFile.missing⟩ (resFail (strL "What task would you like to add?"))
      ⟨[], StoreFile.missing⟩ (by rfl) (by rfl)

/-- Counterexample to C10: with one history entry (fewer than two) but fresh
clipboard content, the pre-paste poll inside `_paste_item` grows the history
to two entries, so the paste-previous phrase succeeds — pasting what was the
most recent stored entry — instead of failing with
"No clipboard entry at position 2." as the claim states. -/
theorem claim10_counterexample :
    (⟨[⟨strL "a", strL "00:00:00"⟩], 50, false, none, []⟩ : ClipState).history.length < 2 ∧
    (clipExecute (strL "paste previous")
        ⟨true, PasteOutcome.ok (strL "b"), none, strL "00:00:01"⟩
        ⟨[⟨strL "a", strL "00:00:00"⟩], 50, false, none, []⟩).1.success = true ∧
    (clipExecute (strL "paste previous")
        ⟨true, PasteOutcome.ok (strL "b"), none, strL "00:00:01"⟩
        ⟨[⟨strL "a", strL "00:00:00"⟩], 50, false, none, []⟩).1.response =
      strL "Copied to clipboard: a" := by
  refine ⟨by decide, ?_, ?_⟩ <;> rfl

/-- C10 as amended: a paste-previous phrase (with the clear, search and
explicit-number branches not matching) pastes the entry at internal index 1 of
the history as updated by the pre-paste clipboard poll (which may first record
the current clipboard content as a new most-recent entry); if the post-poll
history holds fewer than two entries the result is success=false with
"No clipboard entry at position 2.", and a clipboard write failure yields
success=false with a copy-error message. -/
theorem claim10_paste_previous_amended
    (cmd : Str) (env : ClipEnv) (st : ClipState)
    (h1 : env.hasPyperclip = true)
    (h2 : (containsSub (strL "clear") (pyStrip (lowerStr cmd)) &&
      containsSub (strL "clipboard") (pyStrip (lowerStr cmd))) = false)
    (h3 : (containsSub (strL "search") (pyStrip (lowerStr cmd)) &&
      containsSub (strL "clipboard") (pyStrip (lowerStr cmd))) = false)
    (h4 : searchPos matchPasteNumAt (pyStrip (lowerStr cmd)) = none)
    (h5 : matchAny clipPastePhrases (pyStrip (lowerStr cmd)) = true) :
    clipExecute cmd env st =
      (if (clipCheck env st).history.length < 2 then
        (resFail (strL "No clipboard entry at position 2."), clipCheck env st)
      else
        match env.copyErr with
        | some e => (resFail (strL "Failed to copy to clipboard: " ++ e), clipCheck env st)
        | none => (resOk (strL "clipboard")
            (pasteOkResponse ((clipCheck env st).history.getD 1 default)),
            clipCheck env st)) := by
  have hstep : clipExecute cmd env st = clipPasteItem 1 env st := by
    unfold clipExecute
    dsimp only []
    rw [h4]
    simp [h1, h2, h3, h5]
  rw [hstep]
  by_cases hl : (clipCheck env st).history.length < 2
  · have hc : ((1 : Int) < 0 ∨ ((clipCheck env st).history.length : Int) ≤ 1) := by
      right
      omega
    simp only [clipPasteItem, if_pos hc, if_pos hl]
    rfl
  · have hc : ¬((1 : Int) < 0 ∨ ((clipCheck env st).history.length : Int) ≤ 1) := by
      push_neg
      refine ⟨by omega, by omega⟩
    simp only [clipPasteItem, if_neg hc, if_neg hl]
    rfl

/-- Witness for the amended C10 at a concrete input: "paste last" with an
empty post-poll history fails with the position-2 message. -/
theorem claim10_witness :
    clipExecute (strL "paste last") ⟨true, PasteOutcome.error, none, []⟩
        ⟨[], 50, false, none, []⟩ =
      (resFail (strL "No clipboard entry at position 2."),
        ⟨[], 50, false, none, []⟩) := by
  have h := claim10_paste_previous_amended (strL "paste last")
    ⟨true, PasteOutcome.error, none, []⟩ ⟨[], 50, false, none, []⟩
    (by rfl) (by rfl) (by rfl) (by rfl) (by rfl)
  rw [h]
  rfl
